import Mathlib

/-!
Verification development for the PwC login-automation service
(`src/index.js`).  The file shallowly embeds the service variant that the
specification treats as the reference behavior (the second of the three
near-duplicate rewrites contained in `index.js`, lines 736-1782): the
element resolver (`tryFill`, `tryClick`, `findOtpInputInAllFrames`), the
in-memory session table with its on-disk snapshot files
(`cleanupExpiredSessions`, `/start-login`, `/complete-login`), and the
async ticket queue (`queueJob`, `GET /status/:ticket_id`).

Browser automation is an external capability: the outcome of each
fallible browser step (a `tryFill` call succeeding, a selector being
visible, `browser.close()` rejecting, a snapshot deserializing) is an
explicit boolean input of the embedding, and the handlers are pure
functions from those inputs and the current server state to a response,
a new state, and bookkeeping flags (which browser contexts opened during
the attempt are still open when the response is sent, which deferred
tasks were scheduled).
-/

namespace PwC

/-- One character list starts with another. -/
def listStartsWith : List Char → List Char → Bool
  | [], _ => true
  | _ :: _, [] => false
  | a :: as, b :: bs => a == b && listStartsWith as bs

/-- A character list contains another as a contiguous run. -/
def listIncludes (hay pat : List Char) : Bool :=
  match hay with
  | [] => pat.isEmpty
  | _ :: rest => listStartsWith pat hay || listIncludes rest pat

/-- JavaScript `String.prototype.includes`: `pat` occurs contiguously
in `s`. -/
def strIncludes (s pat : String) : Bool :=
  listIncludes s.data pat.data

/-- Association-list lookup, modelling JavaScript `Map.prototype.get`
(the maps in the service always have pairwise distinct keys). -/
def lookupA {α : Type} : List (String × α) → String → Option α
  | [], _ => none
  | e :: rest, k => if e.1 = k then some e.2 else lookupA rest k

/-- Association-list update, modelling `Map.prototype.set`: replaces the
entry in place when the key is present (JS maps keep insertion order on
overwrite), appends otherwise. -/
def setA {α : Type} : List (String × α) → String → α → List (String × α)
  | [], k, v => [(k, v)]
  | e :: rest, k, v => if e.1 = k then (k, v) :: rest else e :: setA rest k v

/-- Association-list removal, modelling `Map.prototype.delete`. -/
def delA {α : Type} : List (String × α) → String → List (String × α)
  | [], _ => []
  | e :: rest, k => if e.1 = k then rest else e :: delA rest k

/-- The keys of an association list are pairwise distinct (an invariant
of every JS `Map`). -/
def keysNodup {α : Type} (l : List (String × α)) : Prop :=
  (l.map Prod.fst).Nodup

theorem lookupA_setA_self {α : Type} (l : List (String × α)) (k : String) (v : α) :
    lookupA (setA l k v) k = some v := by
  induction l with
  | nil => simp [setA, lookupA]
  | cons e rest ih =>
    by_cases h : e.1 = k
    · simp [setA, h, lookupA]
    · simp [setA, h, lookupA, ih]

theorem keysNodup_tail {α : Type} {e : String × α} {rest : List (String × α)}
    (h : keysNodup (e :: rest)) : keysNodup rest :=
  (List.nodup_cons.mp h).2

theorem keysNodup_head_notin {α : Type} {e : String × α} {rest : List (String × α)}
    (h : keysNodup (e :: rest)) : e.1 ∉ rest.map Prod.fst :=
  (List.nodup_cons.mp h).1

theorem lookupA_setA_ne {α : Type} (l : List (String × α)) (k j : String) (v : α)
    (h : j ≠ k) : lookupA (setA l k v) j = lookupA l j := by
  induction l with
  | nil =>
    have hkj : ¬ (k = j) := fun hh => h hh.symm
    simp [setA, lookupA, hkj]
  | cons e rest ih =>
    by_cases he : e.1 = k
    · have hkj : ¬ (k = j) := fun hh => h hh.symm
      rw [setA, if_pos he, lookupA, lookupA, he, if_neg hkj, if_neg hkj]
    · by_cases hj : e.1 = j
      · rw [setA, if_neg he, lookupA, if_pos hj, lookupA, if_pos hj]
      · rw [setA, if_neg he, lookupA, if_neg hj, lookupA, if_neg hj, ih]

theorem lookupA_notin {α : Type} (l : List (String × α)) (k : String)
    (h : k ∉ l.map Prod.fst) : lookupA l k = none := by
  induction l with
  | nil => rfl
  | cons e rest ih =>
    have h1 : ¬ (e.1 = k) := by
      intro hh
      exact h (by simp [hh.symm])
    have h2 : k ∉ rest.map Prod.fst := by
      intro hh
      exact h (by simp [hh])
    rw [lookupA, if_neg h1, ih h2]

theorem lookupA_delA_self {α : Type} (l : List (String × α)) (k : String)
    (h : keysNodup l) : lookupA (delA l k) k = none := by
  induction l with
  | nil => rfl
  | cons e rest ih =>
    by_cases he : e.1 = k
    · rw [delA, if_pos he]
      apply lookupA_notin
      rw [← he]
      exact keysNodup_head_notin h
    · rw [delA, if_neg he, lookupA, if_neg he, ih (keysNodup_tail h)]

theorem lookupA_delA_ne {α : Type} (l : List (String × α)) (k j : String)
    (h : j ≠ k) : lookupA (delA l k) j = lookupA l j := by
  induction l with
  | nil => rfl
  | cons e rest ih =>
    by_cases he : e.1 = k
    · have hej : ¬ (e.1 = j) := by
        rw [he]
        exact fun hh => h hh.symm
      rw [delA, if_pos he, lookupA, if_neg hej]
    · rw [delA, if_neg he, lookupA, lookupA]
      by_cases hj : e.1 = j
      · rw [if_pos hj, if_pos hj]
      · rw [if_neg hj, if_neg hj, ih]

theorem lookupA_eq_some_of_mem {α : Type} {l : List (String × α)} {k : String}
    {v : α} (hnd : keysNodup l) (hm : (k, v) ∈ l) : lookupA l k = some v := by
  induction l with
  | nil => simp at hm
  | cons e rest ih =>
    rcases List.mem_cons.mp hm with h1 | h2
    · rw [← h1, lookupA, if_pos rfl]
    · have hke : ¬ (e.1 = k) := by
        intro hh
        exact keysNodup_head_notin hnd (by
          rw [hh]
          exact List.mem_map.mpr ⟨(k, v), h2, rfl⟩)
      rw [lookupA, if_neg hke, ih (keysNodup_tail hnd) h2]

/-!
## Element resolver (`tryFill`, `tryClick`, `findOtpInputInAllFrames`)

A document frame is abstracted by which CSS selectors currently have a
visible first match in it (Playwright `waitForSelector` defaults to
state `visible`, and `locator.isVisible` checks visibility), plus which
visible selectors still make `fill` or `click` throw, and whether the
label-anchored fallback of `findOtpInputInAllFrames` (a visible
`text=/One-time verification code/i` node with a visible `input` next to
it) applies.  The embedding is of a static document: one pass of the
polling `while` loop of `findOtpInputInAllFrames` decides the result,
since later passes see the same document.
-/

structure Frame where
  visible : List String
  fillFails : List String
  clickFails : List String
  labelOtpVisible : Bool
  labelNearInputVisible : Bool
deriving DecidableEq

/-- A page: its main document plus the array returned by
`page.frames()` (which also re-lists the main frame as a `Frame`
object; only the head of `allFrames` is the `Page` object itself, so
only it satisfies the `frame === page` identity test in the source). -/
structure Page where
  main : Frame
  frames : List Frame
deriving DecidableEq

/-- Function `tryFill` of `index.js` line 806: iterates the selector list and
acts on the first selector whose `waitForSelector` succeeds (a visible
match) and whose `fill` does not throw; this returns that selector. -/
def tryFillSel (page : Frame) (selectors : List String) : Option String :=
  selectors.find? (fun sel =>
    page.visible.contains sel && !(page.fillFails.contains sel))

/-- The boolean result of `tryFill` (line 806): `true` iff some
candidate was filled. -/
def tryFill (page : Frame) (selectors : List String) : Bool :=
  (tryFillSel page selectors).isSome

/-- Function `tryClick` of `index.js` line 813, returning the selector clicked. -/
def tryClickSel (page : Frame) (selectors : List String) : Option String :=
  selectors.find? (fun sel =>
    page.visible.contains sel && !(page.clickFails.contains sel))

/-- The boolean result of `tryClick` (line 813). -/
def tryClick (page : Frame) (selectors : List String) : Bool :=
  (tryClickSel page selectors).isSome

/-- The OTP-input candidate list of `findOtpInputInAllFrames`
(`index.js` lines 828-844), in source order (the final two entries
repeat earlier ones, as in the source). -/
def otpSelectors : List String :=
  ["input[placeholder=\"One-time verification code\"]",
   "input[aria-label=\"One-time verification code\"]",
   "input[autocomplete=\"one-time-code\"]",
   "input[type=\"text\"][inputmode=\"numeric\"]",
   "input[type=\"tel\"]",
   "input[name=\"callback_2\"]",
   "input[name*=\"otp\" i]",
   "input[id*=\"otp\" i]",
   "input[name*=\"code\" i]",
   "input[id*=\"code\" i]",
   "input[aria-label*=\"verification\" i]",
   "input[aria-label*=\"one-time\" i]",
   "input[placeholder*=\"verification\" i]",
   "input[type=\"text\"]",
   "input[type=\"tel\"]"]

/-- The submit-affordance list of `findOtpInputInAllFrames`
(`index.js` lines 846-856). -/
def submitSelectors : List String :=
  ["button:has-text(\"Send my code\")",
   "button:has-text(\"Email me a code\")",
   "button:has-text(\"Send code\")",
   "button:has-text(\"Send verification code\")",
   "button:has-text(\"Submit\")",
   "button:has-text(\"Continue\")",
   "button:has-text(\"Next\")",
   "input[type=\"submit\"]",
   "button[type=\"submit\"]"]

/-- Some submit-affordance selector has a visible match in the frame
(the `hasSubmit` race over `submitSelectors` at lines 869-873, and the
joined-selector `hasSubmitAnywhere` probe of line 879 applied to the
main page). -/
def frameHasAnySubmit (f : Frame) : Bool :=
  submitSelectors.any (fun s => f.visible.contains s)

/-- Lines 863-887: an OTP candidate is taken in a frame iff it is
visible there and a submit affordance is visible in the same frame, or
one is visible in the main page, or the scanned entry is the page
itself (`frame === page`). -/
def otpSelectorEligible (pg : Page) (f : Frame) (isMain : Bool) (sel : String) : Bool :=
  f.visible.contains sel &&
    (frameHasAnySubmit f || frameHasAnySubmit pg.main || isMain)

/-- How the returned locator was obtained: by one of the candidate
selectors, or by the label-anchored fallback of lines 889-901. -/
inductive OtpLocator where
  | bySelector (sel : String)
  | byLabelAnchor
deriving DecidableEq

/-- The result of `findOtpInputInAllFrames`: the index of the frame in
`allFrames` (`0` is the page itself) and the locator. -/
structure OtpHit where
  frameIdx : Nat
  loc : OtpLocator
deriving DecidableEq

/-- One frame scan of the `while` body (lines 862-902): candidates in
order, then the label-anchored fallback. -/
def scanFrame (pg : Page) (f : Frame) (isMain : Bool) : Option OtpLocator :=
  match otpSelectors.find? (otpSelectorEligible pg f isMain) with
  | some sel => some (.bySelector sel)
  | none =>
    if f.labelOtpVisible && f.labelNearInputVisible then some .byLabelAnchor
    else none

/-- Frame-major scan of `allFrames`, carrying the frame index. -/
def findOtpGo (pg : Page) : Nat → List Frame → Option OtpHit
  | _, [] => none
  | i, f :: rest =>
    match scanFrame pg f (i == 0) with
    | some loc => some ⟨i, loc⟩
    | none => findOtpGo pg (i + 1) rest

/-- Function `findOtpInputInAllFrames` (`index.js` lines 827-908) on a static
document: `allFrames = [page, ...page.frames()]`, scanned frame-major;
`none` models the 30-second timeout returning `null`. -/
def findOtpInputInAllFrames (pg : Page) : Option OtpHit :=
  findOtpGo pg 0 (pg.main :: pg.frames)

/-- A candidate selector has a visible match in the page or in some
frame of `page.frames()`. -/
def visibleSomewhere (pg : Page) (sel : String) : Bool :=
  pg.main.visible.contains sel || pg.frames.any (fun f => f.visible.contains sel)

theorem find?_first_split {α : Type} {p : α → Bool} {l : List α} {a : α}
    (h : l.find? p = some a) :
    p a = true ∧ ∃ pre suf, l = pre ++ a :: suf ∧ ∀ x ∈ pre, p x = false := by
  induction l with
  | nil => simp [List.find?] at h
  | cons b rest ih =>
    by_cases hb : p b = true
    · rw [List.find?_cons_of_pos _ hb] at h
      cases h
      exact ⟨hb, [], rest, rfl, by intro x hx; simp at hx⟩
    · have hb' : p b = false := by
        cases hpb : p b
        · rfl
        · exact absurd hpb hb
      rw [List.find?_cons_of_neg _ (by simp [hb'])] at h
      obtain ⟨hpa, pre, suf, heq, hpre⟩ := ih h
      refine ⟨hpa, b :: pre, suf, by rw [heq]; rfl, ?_⟩
      intro x hx
      rcases List.mem_cons.mp hx with h1 | h2
      · rw [h1]; exact hb'
      · exact hpre x h2

theorem findOtpGo_eq_some {pg : Page} {n : Nat} {fs : List Frame} {i : Nat}
    {loc : OtpLocator} (h : findOtpGo pg n fs = some ⟨i, loc⟩) :
    ∃ pre f suf, fs = pre ++ f :: suf ∧ i = n + pre.length ∧
      scanFrame pg f (i == 0) = some loc ∧
      ∀ j (hj : j < pre.length),
        scanFrame pg (pre.get ⟨j, hj⟩) ((n + j) == 0) = none := by
  induction fs generalizing n with
  | nil => simp [findOtpGo] at h
  | cons f rest ih =>
    rw [findOtpGo] at h
    cases hscan : scanFrame pg f (n == 0) with
    | some loc' =>
      rw [hscan] at h
      cases h
      refine ⟨[], f, rest, rfl, by simp, hscan, ?_⟩
      intro j hj
      simp at hj
    | none =>
      rw [hscan] at h
      obtain ⟨pre, f', suf, heq, hi, hs, hpre⟩ := ih h
      refine ⟨f :: pre, f', suf, by rw [heq, List.cons_append], ?_, hs, ?_⟩
      · rw [hi, List.length_cons]
        omega
      · intro j hj
        cases j with
        | zero =>
          have : n + 0 = n := Nat.add_zero n
          rw [this]
          exact hscan
        | succ j' =>
          have hj' : j' < pre.length := by
            have := hj
            rw [List.length_cons] at this
            omega
          have hp := hpre j' hj'
          have harith : n + (j' + 1) = n + 1 + j' := by omega
          rw [harith]
          exact hp

/-!
## C4: element-resolution priority

The claim says the resolvers return a match for the earliest candidate
in the list that is visible, never a later candidate when an earlier one
has a visible match.  That holds for `tryFill`/`tryClick` on a single
frame, but `findOtpInputInAllFrames` iterates frame-major (all
candidates of one frame before any candidate of the next), so a later
candidate visible in the page wins over an earlier candidate visible
only in a child frame; moreover a visible candidate without a visible
submit affordance is skipped inside its frame.  `ce4Page` exhibits the
frame-major violation.
-/

/-- Counterexample page for C4: the main document only has the
fourteenth candidate visible (plus a submit button); a child frame has
the third candidate visible (plus a submit button). -/
def ce4Main : Frame :=
  ⟨["input[type=\"text\"]", "button[type=\"submit\"]"], [], [], false, false⟩

/-- The child frame of the C4 counterexample. -/
def ce4Child : Frame :=
  ⟨["input[autocomplete=\"one-time-code\"]", "button[type=\"submit\"]"], [], [], false, false⟩

/-- The C4 counterexample page. -/
def ce4Page : Page := ⟨ce4Main, [ce4Child]⟩

/-- Claim C4 as stated is false: on `ce4Page` the OTP search returns
the candidate at position 13 of the list, found in the main document,
although the earlier candidate at position 2 has a visible match in a
frame, so the resolver does return a later candidate while an earlier
candidate also has a visible match. -/
theorem C4_counterexample :
    findOtpInputInAllFrames ce4Page =
      some ⟨0, .bySelector "input[type=\"text\"]"⟩ ∧
    visibleSomewhere ce4Page "input[autocomplete=\"one-time-code\"]" = true ∧
    otpSelectors.indexOf "input[autocomplete=\"one-time-code\"]" <
      otpSelectors.indexOf "input[type=\"text\"]" := by
  decide

/-- Claim C4 (amended): `tryFill` and `tryClick` act on the first
candidate that is visible and actionable and never a later one when an
earlier candidate is visible and actionable; `findOtpInputInAllFrames`
scans frames in order (the page first) and, within each frame,
candidates in order, returning the first candidate that is visible and
accompanied by a visible submit affordance (in the same frame, or in
the main page, or when the scanned entry is the page itself); every
earlier frame yields nothing, and within the hit frame every earlier
candidate is not eligible. -/
theorem C4_resolver_first_match :
    (∀ (page : Frame) (selectors : List String) (sel : String),
       tryFillSel page selectors = some sel →
       (page.visible.contains sel && !(page.fillFails.contains sel)) = true ∧
       ∃ pre suf, selectors = pre ++ sel :: suf ∧
         ∀ s ∈ pre,
           (page.visible.contains s && !(page.fillFails.contains s)) = false) ∧
    (∀ (page : Frame) (selectors : List String) (sel : String),
       tryClickSel page selectors = some sel →
       (page.visible.contains sel && !(page.clickFails.contains sel)) = true ∧
       ∃ pre suf, selectors = pre ++ sel :: suf ∧
         ∀ s ∈ pre,
           (page.visible.contains s && !(page.clickFails.contains s)) = false) ∧
    (∀ (pg : Page) (f : Frame) (m : Bool) (sel : String),
       scanFrame pg f m = some (.bySelector sel) →
       otpSelectorEligible pg f m sel = true ∧
       ∃ pre suf, otpSelectors = pre ++ sel :: suf ∧
         ∀ s ∈ pre, otpSelectorEligible pg f m s = false) ∧
    (∀ (pg : Page) (i : Nat) (loc : OtpLocator),
       findOtpInputInAllFrames pg = some ⟨i, loc⟩ →
       ∃ pre f suf, pg.main :: pg.frames = pre ++ f :: suf ∧ i = pre.length ∧
         scanFrame pg f (i == 0) = some loc ∧
         ∀ j (hj : j < pre.length),
           scanFrame pg (pre.get ⟨j, hj⟩) (j == 0) = none) := by
  refine ⟨?_, ?_, ?_, ?_⟩
  · intro page selectors sel h
    obtain ⟨hp, pre, suf, heq, hpre⟩ := find?_first_split h
    exact ⟨hp, pre, suf, heq, hpre⟩
  · intro page selectors sel h
    obtain ⟨hp, pre, suf, heq, hpre⟩ := find?_first_split h
    exact ⟨hp, pre, suf, heq, hpre⟩
  · intro pg f m sel h
    rw [scanFrame] at h
    cases hf : otpSelectors.find? (otpSelectorEligible pg f m) with
    | some sel' =>
      rw [hf] at h
      cases h
      obtain ⟨hp, pre, suf, heq, hpre⟩ := find?_first_split hf
      exact ⟨hp, pre, suf, heq, hpre⟩
    | none =>
      rw [hf] at h
      by_cases hl : (f.labelOtpVisible && f.labelNearInputVisible) = true
      · rw [if_pos hl] at h
        cases h
      · rw [if_neg hl] at h
        cases h
  · intro pg i loc h
    obtain ⟨pre, f, suf, heq, hi, hs, hpre⟩ := findOtpGo_eq_some h
    refine ⟨pre, f, suf, heq, by omega, hs, ?_⟩
    intro j hj
    have := hpre j hj
    have harith : 0 + j = j := Nat.zero_add j
    rw [harith] at this
    exact this

/-- Witness for `C4_resolver_first_match` at concrete inputs: a frame
where only the second candidate is actionable, and the counterexample
page for the frame-scan component. -/
theorem C4_resolver_first_match_witness :
    ((Frame.mk ["b"] [] [] false false).visible.contains "b" &&
      !((Frame.mk ["b"] [] [] false false).fillFails.contains "b")) = true ∧
    ∃ pre suf, ["a", "b"] = pre ++ "b" :: suf ∧
      ∀ s ∈ pre,
        ((Frame.mk ["b"] [] [] false false).visible.contains s &&
          !((Frame.mk ["b"] [] [] false false).fillFails.contains s)) = false :=
  C4_resolver_first_match.1 (Frame.mk ["b"] [] [] false false) ["a", "b"] "b"
    (by decide)

/-!
## Async ticket queue (`queueJob`, `GET /status/:ticket_id`)

`queueJob` (`index.js` lines 1701-1713) stores a queued ticket
under a fresh uuid, schedules the unit of work with `setImmediate`, and
the single scheduled callback overwrites the entry exactly once, with
a done ticket holding the result on normal return or an error ticket
when the work throws (the `try`/`catch` makes the two writes mutually
exclusive).  Tickets are never deleted.  `GET /status/:ticket_id`
(lines 1742-1746) is a pure read.
-/

/-- A ticket value as stored in the `tickets` map. -/
inductive TicketStatus where
  | queued
  | done (result : String)
  | fail (msg : String)
deriving DecidableEq

/-- A ticket status is terminal (not `queued`). -/
def TicketStatus.isTerminal : TicketStatus → Bool
  | .queued => false
  | .done _ => true
  | .fail _ => true

/-- The map write of `queueJob` before scheduling:
the queued-ticket write of line 1703. -/
def queueJobEnqueue (tickets : List (String × TicketStatus)) (id : String) :
    List (String × TicketStatus) :=
  setA tickets id .queued

/-- The single terminal value written by the scheduled callback (lines
1705-1710): `done` with the result of `run()`, or `error` with the
thrown message. -/
def runOutcomeStatus : Except String String → TicketStatus
  | .ok r => .done r
  | .error e => .fail e

/-- The map write performed by the `setImmediate` callback of
`queueJob`: exactly one of the two `tickets.set` calls runs. -/
def queueJobFinish (tickets : List (String × TicketStatus)) (id : String)
    (outcome : Except String String) : List (String × TicketStatus) :=
  setA tickets id (runOutcomeStatus outcome)

/-- The response of `GET /status/:ticket_id`. -/
structure TicketResp where
  status : Nat
  ok : Bool
  err : Option String
  ticket : Option TicketStatus
deriving DecidableEq

/-- Endpoint `GET /status/:ticket_id` (lines 1742-1746): 404 `Unknown ticket`
when the id is not in the map, otherwise 200 with `ok:true` spread over
the stored ticket value. -/
def statusEndpoint (tickets : List (String × TicketStatus)) (id : String) :
    TicketResp :=
  match lookupA tickets id with
  | none => ⟨404, false, some "Unknown ticket", none⟩
  | some t => ⟨200, true, none, some t⟩

/-- Claim C5: a ticket created by `queueJob` starts `queued`; polling
before the worker runs returns `queued`; the single worker execution
moves it to a terminal state determined by the outcome of the unit of
work (`done` with the result, or the error state with the message);
polling after completion returns that same terminal payload (the
endpoint is a pure read of the unchanged entry); no ticket is ever
deleted (every other id keeps its previous entry); an unknown ticket id
gets `NotFound`. -/
theorem C5_ticket_lifecycle (tickets : List (String × TicketStatus))
    (id : String) (outcome : Except String String)
    (hfresh : lookupA tickets id = none) :
    lookupA (queueJobEnqueue tickets id) id = some .queued ∧
    statusEndpoint (queueJobEnqueue tickets id) id =
      ⟨200, true, none, some .queued⟩ ∧
    lookupA (queueJobFinish (queueJobEnqueue tickets id) id outcome) id =
      some (runOutcomeStatus outcome) ∧
    (runOutcomeStatus outcome).isTerminal = true ∧
    statusEndpoint (queueJobFinish (queueJobEnqueue tickets id) id outcome) id =
      ⟨200, true, none, some (runOutcomeStatus outcome)⟩ ∧
    (∀ j, j ≠ id →
      lookupA (queueJobFinish (queueJobEnqueue tickets id) id outcome) j =
        lookupA tickets j) ∧
    statusEndpoint tickets id = ⟨404, false, some "Unknown ticket", none⟩ := by
  have h1 : lookupA (queueJobEnqueue tickets id) id = some .queued :=
    lookupA_setA_self tickets id .queued
  have h2 : lookupA (queueJobFinish (queueJobEnqueue tickets id) id outcome) id
      = some (runOutcomeStatus outcome) :=
    lookupA_setA_self (queueJobEnqueue tickets id) id (runOutcomeStatus outcome)
  refine ⟨h1, ?_, h2, ?_, ?_, ?_, ?_⟩
  · rw [statusEndpoint, h1]
  · cases outcome with
    | ok r => rfl
    | error e => rfl
  · rw [statusEndpoint, h2]
  · intro j hj
    rw [queueJobFinish, lookupA_setA_ne _ _ _ _ hj,
      queueJobEnqueue, lookupA_setA_ne _ _ _ _ hj]
  · rw [statusEndpoint, hfresh]

/-- Witness for `C5_ticket_lifecycle`: a concrete failing job on a
one-entry table. -/
theorem C5_ticket_lifecycle_witness :
    lookupA (queueJobEnqueue [("old", .done "r0")] "t1") "t1" = some .queued ∧
    statusEndpoint (queueJobEnqueue [("old", .done "r0")] "t1") "t1" =
      ⟨200, true, none, some .queued⟩ ∧
    lookupA (queueJobFinish (queueJobEnqueue [("old", .done "r0")] "t1") "t1"
        (.error "boom")) "t1" = some (runOutcomeStatus (.error "boom")) ∧
    (runOutcomeStatus (Except.error "boom")).isTerminal = true ∧
    statusEndpoint (queueJobFinish (queueJobEnqueue [("old", .done "r0")] "t1")
        "t1" (.error "boom")) "t1" =
      ⟨200, true, none, some (runOutcomeStatus (.error "boom"))⟩ ∧
    (∀ j, j ≠ "t1" →
      lookupA (queueJobFinish (queueJobEnqueue [("old", .done "r0")] "t1") "t1"
          (.error "boom")) j = lookupA [("old", .done "r0")] j) ∧
    statusEndpoint [("old", .done "r0")] "t1" =
      ⟨404, false, some "Unknown ticket", none⟩ :=
  C5_ticket_lifecycle [("old", .done "r0")] "t1" (.error "boom") (by decide)

/-- Claim C10: for every id present in the ticket table the endpoint
answers HTTP 200 with `ok:true`, even when the stored status is the
terminal error state; `ok:false` is produced exactly for ids not in the
table, as HTTP 404 with error `Unknown ticket`. -/
theorem C10_status_ok_even_on_error (tickets : List (String × TicketStatus))
    (id : String) :
    (∀ t, lookupA tickets id = some t →
      statusEndpoint tickets id = ⟨200, true, none, some t⟩) ∧
    (lookupA tickets id = none →
      statusEndpoint tickets id = ⟨404, false, some "Unknown ticket", none⟩) := by
  constructor
  · intro t h
    rw [statusEndpoint, h]
  · intro h
    rw [statusEndpoint, h]

/-- Witness for `C10_status_ok_even_on_error`: a table whose only
ticket is in the terminal error state still polls as HTTP 200 with
`ok:true`, and an absent id polls as 404. -/
theorem C10_status_ok_even_on_error_witness :
    statusEndpoint [("t1", .fail "boom")] "t1" =
      ⟨200, true, none, some (.fail "boom")⟩ ∧
    statusEndpoint [("t1", .fail "boom")] "nope" =
      ⟨404, false, some "Unknown ticket", none⟩ :=
  ⟨(C10_status_ok_even_on_error [("t1", .fail "boom")] "t1").1
      (.fail "boom") (by decide),
   (C10_status_ok_even_on_error [("t1", .fail "boom")] "nope").2 (by decide)⟩

/-!
## Session store state

The server state the handlers touch: the in-memory `sessions` map
(insertion-ordered, as a JS `Map`), the process-wide `latestSessionId`,
and the snapshot directory (`/tmp/pwc/<id>.json`), modelled as the list
of snapshot ids present, in `readdir` order.
-/

/-- The session TTL of the reference variant
(`const SESSION_TTL = 15 * 60 * 1000`, line 749). -/
def SESSION_TTL : Nat := 15 * 60 * 1000

/-- An entry of the `sessions` map: its expiry timestamp, whether its
stored page handle is closed (`session.page.isClosed()`, line 1321),
and whether `await session.browser.close()` rejects when invoked (the
`catch` of `cleanupExpiredSessions` exists for exactly that case). -/
structure Session where
  expiry : Nat
  pageClosed : Bool
  closeThrows : Bool
deriving DecidableEq

/-- The server state. -/
structure St where
  sessions : List (String × Session)
  latestSessionId : Option String
  disk : List String
deriving DecidableEq

/-- Removing `<id>.json` from the snapshot directory (`fs.unlink`). -/
def removeFile (disk : List String) (id : String) : List String :=
  disk.filter (fun f => f != id)

/-- Writing `<id>.json` (`fs.writeFile`, whole-file replace). -/
def addFile (disk : List String) (id : String) : List String :=
  if disk.contains id then disk else disk ++ [id]

/-- Function `cleanupExpiredSessions` (`index.js` lines 916-932) over the entry
list and the snapshot directory: for each entry past its expiry, close
its browser, unlink its snapshot, and delete it from the map - except
that when `browser.close()` throws, the `catch` only deletes the map
entry, skipping the unlink.  Entries not past expiry are untouched. -/
def cleanupList (now : Nat) :
    List (String × Session) → List String → List (String × Session) × List String
  | [], disk => ([], disk)
  | e :: rest, disk =>
    if e.2.expiry < now then
      if e.2.closeThrows then cleanupList now rest disk
      else cleanupList now rest (removeFile disk e.1)
    else
      let r := cleanupList now rest disk
      (e :: r.1, r.2)

/-- One run of the cleanup sweep on the server state. -/
def cleanupExpiredSessions (now : Nat) (st : St) : St :=
  let r := cleanupList now st.sessions st.disk
  ⟨r.1, st.latestSessionId, r.2⟩

theorem removeFile_contains_self (disk : List String) (id : String) :
    (removeFile disk id).contains id = false := by
  induction disk with
  | nil => rfl
  | cons f rest ih =>
    rw [removeFile, List.filter]
    by_cases hf : f = id
    · simp only [hf, bne_self_eq_false]
      simp only [removeFile] at ih
      exact ih
    · have hne : (f != id) = true := by simp [hf]
      rw [hne]
      simp only [List.contains_cons]
      have hidf : ¬ (id = f) := fun hh => hf hh.symm
      have : (id == f) = false := by simp [hidf]
      rw [this]
      simp only [removeFile] at ih
      simp [ih]

theorem removeFile_contains_ne (disk : List String) (id j : String)
    (h : j ≠ id) : (removeFile disk id).contains j = disk.contains j := by
  induction disk with
  | nil => rfl
  | cons f rest ih =>
    rw [removeFile, List.filter]
    by_cases hf : f = id
    · have hfb : (f != id) = false := by simp [hf]
      rw [hfb]
      simp only [List.contains_cons]
      have : (j == f) = false := by simp [hf, h]
      rw [this]
      simpa [removeFile] using ih
    · have hne : (f != id) = true := by simp [hf]
      rw [hne]
      simp only [List.contains_cons]
      simpa [removeFile] using congrArg (fun b => (j == f) || b) ih

theorem cleanupList_sub {now : Nat} {l : List (String × Session)} :
    ∀ disk : List String, ∀ x ∈ (cleanupList now l disk).1, x ∈ l := by
  induction l with
  | nil =>
    intro disk x hx
    simp [cleanupList] at hx
  | cons e rest ih =>
    intro disk x hx
    rw [cleanupList] at hx
    by_cases hexp : e.2.expiry < now
    · rw [if_pos hexp] at hx
      by_cases hc : e.2.closeThrows = true
      · rw [if_pos hc] at hx
        exact List.mem_cons_of_mem _ (ih disk x hx)
      · rw [if_neg hc] at hx
        exact List.mem_cons_of_mem _ (ih _ x hx)
    · rw [if_neg hexp] at hx
      rcases List.mem_cons.mp hx with h1 | h2
      · rw [h1]; exact List.mem_cons_self e rest
      · exact List.mem_cons_of_mem _ (ih disk x h2)

theorem cleanupList_disk_notin {now : Nat} {l : List (String × Session)}
    {id : String} (h : id ∉ l.map Prod.fst) :
    ∀ disk : List String,
      (cleanupList now l disk).2.contains id = disk.contains id := by
  induction l with
  | nil => intro disk; rfl
  | cons e rest ih =>
    intro disk
    have h1 : ¬ (e.1 = id) := fun hh => h (by simp [hh.symm])
    have h2 : id ∉ rest.map Prod.fst := fun hh => h (by simp [hh])
    rw [cleanupList]
    by_cases hexp : e.2.expiry < now
    · rw [if_pos hexp]
      by_cases hc : e.2.closeThrows = true
      · rw [if_pos hc, ih h2]
      · rw [if_neg hc, ih h2, removeFile_contains_ne _ _ _ (fun hh => h1 hh.symm)]
    · rw [if_neg hexp]
      exact ih h2 disk

theorem cleanupList_spec {now : Nat} {l : List (String × Session)} {id : String}
    {s : Session} (hnd : keysNodup l) (hm : (id, s) ∈ l) :
    ∀ disk : List String,
    (s.expiry < now →
       lookupA (cleanupList now l disk).1 id = none ∧
       (s.closeThrows = false → (cleanupList now l disk).2.contains id = false) ∧
       (s.closeThrows = true →
         (cleanupList now l disk).2.contains id = disk.contains id)) ∧
    (¬ s.expiry < now →
       lookupA (cleanupList now l disk).1 id = some s ∧
       (cleanupList now l disk).2.contains id = disk.contains id) := by
  induction l with
  | nil => simp at hm
  | cons e rest ih =>
    intro disk
    have hnd' : keysNodup rest := keysNodup_tail hnd
    rcases List.mem_cons.mp hm with h1 | h2
    · have hid : e.1 = id := by rw [← h1]
      have hs : e.2 = s := by rw [← h1]
      have hnotin : id ∉ rest.map Prod.fst := by
        rw [← hid]
        exact keysNodup_head_notin hnd
      constructor
      · intro hexp
        rw [cleanupList, hs, if_pos hexp]
        refine ⟨?_, ?_, ?_⟩
        · by_cases hc : s.closeThrows = true
          · rw [if_pos hc]
            apply lookupA_notin
            intro hcontra
            obtain ⟨x, hx, hk⟩ := List.mem_map.mp hcontra
            exact hnotin (List.mem_map.mpr ⟨x, cleanupList_sub disk x hx, hk⟩)
          · rw [if_neg hc]
            apply lookupA_notin
            intro hcontra
            obtain ⟨x, hx, hk⟩ := List.mem_map.mp hcontra
            exact hnotin (List.mem_map.mpr ⟨x, cleanupList_sub _ x hx, hk⟩)
        · intro hc
          rw [if_neg (by rw [hc]; simp), cleanupList_disk_notin hnotin, hid,
            removeFile_contains_self]
        · intro hc
          rw [if_pos hc, cleanupList_disk_notin hnotin]
      · intro hexp
        rw [cleanupList, hs, if_neg hexp]
        refine ⟨?_, ?_⟩
        · show lookupA (e :: _) id = some s
          rw [lookupA, if_pos hid, hs]
        · exact cleanupList_disk_notin hnotin disk
    · have hidne : e.1 ≠ id := by
        intro hh
        exact keysNodup_head_notin hnd (by
          rw [hh]
          exact List.mem_map.mpr ⟨(id, s), h2, rfl⟩)
      rw [cleanupList]
      by_cases hexp : e.2.expiry < now
      · rw [if_pos hexp]
        by_cases hc : e.2.closeThrows = true
        · rw [if_pos hc]
          exact ih hnd' h2 disk
        · rw [if_neg hc]
          have hIH := ih hnd' h2 (removeFile disk e.1)
          constructor
          · intro hsexp
            obtain ⟨ha, hb, hcth⟩ := hIH.1 hsexp
            refine ⟨ha, hb, ?_⟩
            intro hct
            rw [hcth hct, removeFile_contains_ne _ _ _ hidne.symm]
          · intro hsexp
            obtain ⟨ha, hb⟩ := hIH.2 hsexp
            exact ⟨ha, by rw [hb, removeFile_contains_ne _ _ _ hidne.symm]⟩
      · rw [if_neg hexp]
        have hIH := ih hnd' h2 disk
        constructor
        · intro hsexp
          obtain ⟨ha, hb, hcth⟩ := hIH.1 hsexp
          refine ⟨?_, hb, hcth⟩
          show lookupA (e :: _) id = none
          rw [lookupA, if_neg hidne, ha]
        · intro hsexp
          obtain ⟨ha, hb⟩ := hIH.2 hsexp
          refine ⟨?_, hb⟩
          show lookupA (e :: _) id = some s
          rw [lookupA, if_neg hidne, ha]

/-- Counterexample state for C6: one session, already expired, whose
`browser.close()` rejects; its snapshot file is on disk. -/
def ce6St : St :=
  ⟨[("s1", ⟨0, false, true⟩)], none, ["s1"]⟩

/-- Claim C6 as stated is false: sweeping `ce6St` at time 1 removes the
expired session from the table, but its snapshot file is still on disk,
because the `catch` around `browser.close()` skips the `fs.unlink` when
the close rejects (`index.js` lines 920-929). -/
theorem C6_counterexample :
    (0 : Nat) < 1 ∧
    lookupA (cleanupExpiredSessions 1 ce6St).sessions "s1" = none ∧
    (cleanupExpiredSessions 1 ce6St).disk.contains "s1" = true := by
  decide

/-- Claim C6 (amended): for every session past its expiry, one run of
the cleanup sweep removes it from the in-memory table (a subsequent get
finds nothing); its on-disk snapshot file is removed when closing its
browser does not throw, but is left on disk when `browser.close()`
throws; sessions not yet past their expiry keep their table entry and
their snapshot file unchanged. -/
theorem C6_cleanup_sweep (now : Nat) (st : St) (id : String) (s : Session)
    (hnd : keysNodup st.sessions) (hm : (id, s) ∈ st.sessions) :
    (s.expiry < now →
       lookupA (cleanupExpiredSessions now st).sessions id = none ∧
       (s.closeThrows = false →
         (cleanupExpiredSessions now st).disk.contains id = false) ∧
       (s.closeThrows = true →
         (cleanupExpiredSessions now st).disk.contains id =
           st.disk.contains id)) ∧
    (¬ s.expiry < now →
       lookupA (cleanupExpiredSessions now st).sessions id = some s ∧
       (cleanupExpiredSessions now st).disk.contains id =
         st.disk.contains id) := by
  have h : ∀ disk : List String,
      (s.expiry < now →
        lookupA (cleanupList now st.sessions disk).1 id = none ∧
        (s.closeThrows = false →
          (cleanupList now st.sessions disk).2.contains id = false) ∧
        (s.closeThrows = true →
          (cleanupList now st.sessions disk).2.contains id =
            disk.contains id)) ∧
      (¬ s.expiry < now →
        lookupA (cleanupList now st.sessions disk).1 id = some s ∧
        (cleanupList now st.sessions disk).2.contains id =
          disk.contains id) := cleanupList_spec hnd hm
  exact h st.disk

/-- Witness for `C6_cleanup_sweep`: a state with one expired and one
live session, both snapshots on disk and both closes succeeding. -/
theorem C6_cleanup_sweep_witness :
    ((0 : Nat) < 5 →
       lookupA (cleanupExpiredSessions 5
         ⟨[("s1", ⟨0, false, false⟩), ("s2", ⟨9, false, false⟩)], none,
           ["s1", "s2"]⟩).sessions "s1" = none ∧
       ((false : Bool) = false →
         (cleanupExpiredSessions 5
           ⟨[("s1", ⟨0, false, false⟩), ("s2", ⟨9, false, false⟩)], none,
             ["s1", "s2"]⟩).disk.contains "s1" = false) ∧
       ((false : Bool) = true →
         (cleanupExpiredSessions 5
           ⟨[("s1", ⟨0, false, false⟩), ("s2", ⟨9, false, false⟩)], none,
             ["s1", "s2"]⟩).disk.contains "s1" =
           (["s1", "s2"] : List String).contains "s1")) ∧
    (¬ (0 : Nat) < 5 →
       lookupA (cleanupExpiredSessions 5
         ⟨[("s1", ⟨0, false, false⟩), ("s2", ⟨9, false, false⟩)], none,
           ["s1", "s2"]⟩).sessions "s1" = some ⟨0, false, false⟩ ∧
       (cleanupExpiredSessions 5
         ⟨[("s1", ⟨0, false, false⟩), ("s2", ⟨9, false, false⟩)], none,
           ["s1", "s2"]⟩).disk.contains "s1" =
         (["s1", "s2"] : List String).contains "s1") :=
  C6_cleanup_sweep 5
    ⟨[("s1", ⟨0, false, false⟩), ("s2", ⟨9, false, false⟩)], none,
      ["s1", "s2"]⟩
    "s1" ⟨0, false, false⟩ (by simp [keysNodup]) (by decide)

/-!
## `POST /start-login` (`index.js` lines 957-1174)

The handler, as a pure function of the outcomes of its fallible browser
steps.  It launches a browser, navigates to the identity provider,
fills credentials via `tryFill`/`tryClick`, walks the MFA
channel-choice block, waits for the OTP input, persists the snapshot,
registers the session and sets `latestSessionId`.  Notably it performs
no isolation sweep of existing sessions, snapshots or the latest
pointer before (or at any point of) a new login.
-/

/-- A JSON response of the service, restricted to the fields the claims
are about. -/
structure Response where
  status : Nat
  ok : Bool
  errMsg : Option String
  step : Option String
  message : Option String
  session_id : Option String
deriving DecidableEq

/-- The outcomes of the fallible steps of one `/start-login` attempt.
Each field is the result of the named source step; the browser page is
an external capability, so these are inputs of the embedding. -/
structure StartEnv where
  /-- Whether `PWC_EMAIL && PWC_PASSWORD` are both set (line 960). -/
  credsPresent : Bool
  /-- The fresh `uuidv4()` session id (line 968). -/
  sessionId : String
  /-- Value of `Date.now()` when the session entry is created (line 1141). -/
  now : Nat
  /-- Whether `page.goto` (line 974) throws, landing in the handler-level
  `catch` (line 1152). -/
  gotoThrows : Bool
  /-- The message of the error caught by the handler-level `catch`. -/
  caughtMsg : String
  /-- Whether `tryFill` over the email selectors succeeds (line 976). -/
  emailFilled : Bool
  /-- Whether `tryFill` over the password selectors succeeds (line 994). -/
  passFilled : Bool
  /-- Whether `tryClick` over the submit selectors succeeds (line 1007). -/
  submitted : Bool
  /-- The MFA channel-choice block (lines 1020-1082) completes without
  throwing: an email option and a send-code control were clicked and
  a code input appeared. -/
  mfaOk : Bool
  /-- Whether `findOtpInputInAllFrames` found an input (line 1096). -/
  otpFound : Bool
  /-- The page body still shows the channel-choice prompt
  (line 1099). -/
  stillOnMfa : Bool
  /-- Whether `fs.writeFile` of the snapshot succeeds (line 1128). -/
  saveOk : Bool
deriving DecidableEq

/-- The observable outcome of one `/start-login` invocation: the
response, the server state after it, and whether a browser context
opened during this attempt is still open when the response is sent. -/
structure StartOutcome where
  resp : Response
  st : St
  browserOpenAfter : Bool
deriving DecidableEq

/-- Handler `POST /start-login` (lines 957-1174).  Every failure response
closes the launched browser first, except the snapshot-save failure
(lines 1127-1135), which returns without a `browser.close()`; the
success path keeps the browser open inside the stored session, appends
the session to the table, writes the snapshot file and sets
`latestSessionId`. -/
def startLogin (env : StartEnv) (st : St) : StartOutcome :=
  if !env.credsPresent then
    ⟨⟨400, false, some "Missing credentials", some "start-login", none, none⟩,
      st, false⟩
  else if env.gotoThrows then
    ⟨⟨500, false, some env.caughtMsg, some "start-login", none, none⟩,
      st, false⟩
  else if !env.emailFilled then
    ⟨⟨500, false, some "Email field not found", some "login:email", none, none⟩,
      st, false⟩
  else if !env.passFilled then
    ⟨⟨500, false, some "Password field not found", some "login:password",
        none, none⟩, st, false⟩
  else if !env.submitted then
    ⟨⟨500, false, some "Submit button not found", some "login:submit",
        none, none⟩, st, false⟩
  else if !env.mfaOk then
    ⟨⟨500, false, some "MFA selection failed", some "mfa:select-email",
        none, none⟩, st, false⟩
  else if !env.otpFound then
    if env.stillOnMfa then
      ⟨⟨500, false, some "Still on MFA page - Send my code not clicked",
          some "mfa:send-code", none, none⟩, st, false⟩
    else
      ⟨⟨500, false, some "OTP field not found", some "otp:input", none, none⟩,
        st, false⟩
  else if !env.saveOk then
    ⟨⟨500, false, some "Failed to save session", some "start-login",
        none, none⟩, st, true⟩
  else
    ⟨⟨200, true, none, none, some "Awaiting OTP", some env.sessionId⟩,
      ⟨st.sessions ++ [(env.sessionId, ⟨env.now + SESSION_TTL, false, false⟩)],
        some env.sessionId, addFile st.disk env.sessionId⟩,
      true⟩

/-- A fully successful `/start-login` environment with the given
session id. -/
def okStartEnv (id : String) : StartEnv :=
  ⟨true, id, 0, false, "", true, true, true, true, true, false, true⟩

/-- Claim C1 as stated is false: starting from the empty state, two
consecutive successful `/start-login` calls leave the first session in
the table and its snapshot on disk - the id of the first call still
resolves, rather than yielding `SessionNotFound`, because the handler
performs no isolation sweep. -/
theorem C1_counterexample :
    lookupA
      (startLogin (okStartEnv "s2")
        (startLogin (okStartEnv "s1") ⟨[], none, []⟩).st).st.sessions
      "s1" = some ⟨SESSION_TTL, false, false⟩ ∧
    (startLogin (okStartEnv "s2")
        (startLogin (okStartEnv "s1") ⟨[], none, []⟩).st).st.disk.contains
      "s1" = true := by
  decide

/-- Claim C1 (amended): `/start-login` performs no isolation sweep:
every pre-existing session entry and snapshot file survives the call
unchanged (on every path), and a successful call appends the new
session, writes its snapshot and repoints `latestSessionId` at it; in
particular after two successful calls in a row the first session is
still present and its id still resolves. -/
theorem C1_no_isolation_sweep (env : StartEnv) (st : St) :
    (∀ e, e ∈ st.sessions → e ∈ (startLogin env st).st.sessions) ∧
    (∀ f, st.disk.contains f = true →
      (startLogin env st).st.disk.contains f = true) ∧
    ((startLogin env st).resp.ok = true →
      (startLogin env st).st.sessions =
        st.sessions ++ [(env.sessionId, ⟨env.now + SESSION_TTL, false, false⟩)] ∧
      (startLogin env st).st.latestSessionId = some env.sessionId ∧
      (startLogin env st).st.disk.contains env.sessionId = true) := by
  rw [startLogin]
  by_cases h1 : env.credsPresent
  all_goals by_cases h2 : env.gotoThrows
  all_goals by_cases h3 : env.emailFilled
  all_goals by_cases h4 : env.passFilled
  all_goals by_cases h5 : env.submitted
  all_goals by_cases h6 : env.mfaOk
  all_goals by_cases h7 : env.otpFound
  all_goals by_cases h8 : env.stillOnMfa
  all_goals by_cases h9 : env.saveOk
  all_goals simp only [h1, h2, h3, h4, h5, h6, h7, h8, h9, Bool.not_true,
    Bool.not_false, if_true, if_false, ite_true, ite_false]
  all_goals first
    | (refine ⟨fun e he => he, fun f hf => hf, ?_⟩
       intro hok
       simp at hok)
    | (refine ⟨fun e he => List.mem_append_left _ he, ?_, ?_⟩
       · intro f hf
         rw [addFile]
         by_cases hc : st.disk.contains env.sessionId
         · rw [if_pos hc]; exact hf
         · rw [if_neg hc]
           rcases List.contains_eq_any_beq st.disk f ▸ hf with _
           have : f ∈ st.disk := by
             have := hf
             rw [List.contains_iff_exists_mem_beq] at this
             obtain ⟨a, ha, hb⟩ := this
             have : f = a := by simpa using hb
             rw [this]; exact ha
           have : f ∈ st.disk ++ [env.sessionId] :=
             List.mem_append_left _ this
           rw [List.contains_iff_exists_mem_beq]
           exact ⟨f, this, by simp⟩
       · intro _
         refine ⟨rfl, rfl, ?_⟩
         rw [addFile]
         by_cases hc : st.disk.contains env.sessionId
         · rw [if_pos hc]; exact hc
         · rw [if_neg hc]
           rw [List.contains_iff_exists_mem_beq]
           exact ⟨env.sessionId, List.mem_append_right _ (by simp), by simp⟩)

/-- Witness for `C1_no_isolation_sweep` at the concrete two-call
scenario of the counterexample. -/
theorem C1_no_isolation_sweep_witness :
    (∀ e, e ∈ (startLogin (okStartEnv "s1") ⟨[], none, []⟩).st.sessions →
      e ∈ (startLogin (okStartEnv "s2")
        (startLogin (okStartEnv "s1") ⟨[], none, []⟩).st).st.sessions) ∧
    (∀ f,
      (startLogin (okStartEnv "s1") ⟨[], none, []⟩).st.disk.contains f = true →
      (startLogin (okStartEnv "s2")
        (startLogin (okStartEnv "s1") ⟨[], none, []⟩).st).st.disk.contains f
        = true) ∧
    ((startLogin (okStartEnv "s2")
        (startLogin (okStartEnv "s1") ⟨[], none, []⟩).st).resp.ok = true →
      (startLogin (okStartEnv "s2")
        (startLogin (okStartEnv "s1") ⟨[], none, []⟩).st).st.sessions =
        (startLogin (okStartEnv "s1") ⟨[], none, []⟩).st.sessions ++
          [("s2", ⟨(okStartEnv "s2").now + SESSION_TTL, false, false⟩)] ∧
      (startLogin (okStartEnv "s2")
        (startLogin (okStartEnv "s1") ⟨[], none, []⟩).st).st.latestSessionId =
        some "s2" ∧
      (startLogin (okStartEnv "s2")
        (startLogin (okStartEnv "s1") ⟨[], none, []⟩).st).st.disk.contains "s2"
        = true) :=
  C1_no_isolation_sweep (okStartEnv "s2")
    (startLogin (okStartEnv "s1") ⟨[], none, []⟩).st

/-!
## `POST /complete-login` (`index.js` lines 1176-1575)

The handler resolves the effective session id (`session_id ||
latestSessionId`), obtains a session (from the table, by reloading the
snapshot of that id, or by adopting the first loadable snapshot in the
directory), enters the OTP, submits, waits for network quiescence, and
classifies success with the ordered signal battery of lines 1467-1517.
`browser.close()` calls on the paths of the handler itself are modelled as
succeeding.  The snapshot-load attempts are split into `loadOk`
(`fs.access`/`fs.readFile`/`JSON.parse`, before a browser is launched)
and `restoreOk` (the launch/newContext/goto/wait steps after it): a
file with `loadOk` but not `restoreOk` leaves a launched browser behind
when its loop iteration is caught and the scan continues.
-/

/-- A browser cookie as returned by `context.cookies()`. -/
structure Cookie where
  name : String
  domain : String
deriving DecidableEq

/-- The page state examined by the success-signal battery of
`/complete-login` (lines 1467-1517). -/
structure Battery where
  url : String
  hasTable : Bool
  hasDashboard : Bool
  hasBVText : Bool
  cookies : List Cookie
  bodyText : String
deriving DecidableEq

/-- Signal 1 (lines 1474-1476): the URL matches the PwC domain.  In the
source this only appends an indicator string and never sets
`loginSuccess`. -/
def urlSignal (b : Battery) : Bool :=
  strIncludes b.url "compliancenomination" || strIncludes b.url "pwc.com"

/-- Signal 2 (lines 1478-1496): one of the content-marker selectors
(`table`, `#dashboard`, the Background Verification text) resolves;
the trailing `body` probe never sets `loginSuccess`. -/
def contentSignal (b : Battery) : Bool :=
  b.hasTable || b.hasDashboard || b.hasBVText

/-- Signal 3 (lines 1498-1509): a cookie whose name contains `session`,
`token` or `auth`, or whose domain contains `pwc.com`. -/
def cookieSignal (b : Battery) : Bool :=
  decide (0 < b.cookies.length) &&
    b.cookies.any (fun c =>
      strIncludes c.name "session" || strIncludes c.name "token" ||
      strIncludes c.name "auth" || strIncludes c.domain "pwc.com")

/-- Signal 4 (lines 1511-1517): on a PwC URL, substantial body text
free of login vocabulary. -/
def bodySignal (b : Battery) : Bool :=
  (strIncludes b.url "pwc.com" || strIncludes b.url "compliancenomination") &&
    decide (100 < b.bodyText.length) &&
    !(strIncludes b.bodyText.toLower "sign in") &&
    !(strIncludes b.bodyText.toLower "login")

/-- Flag `loginSuccess` after the battery: the sequential checks amount to
the disjunction of signals 2-4 (signal 1 never sets the flag). -/
def loginSuccessCheck (b : Battery) : Bool :=
  contentSignal b || cookieSignal b || bodySignal b

/-- JavaScript falsiness of an optional string (`undefined`, `null` or
the empty string). -/
def jsFalsy : Option String → Bool
  | none => true
  | some s => s = ""

/-- Expression `session_id || latestSessionId` (line 1189). -/
def jsOrStr (a b : Option String) : Option String :=
  if jsFalsy a then b else a

/-- A task scheduled to run after the response is sent.  The handler of
the reference variant never constructs one: no export hand-off (or any
other deferred work) exists in `index.js`. -/
inductive DeferredTask where
  | exportHandOff (sessionId : String)
deriving DecidableEq

/-- The outcomes of the fallible steps of one `/complete-login`
attempt. -/
structure CompleteEnv where
  /-- Field `req.body.otp`, `none` for a missing/falsy value (line 1181). -/
  otp : Option String
  /-- Field `req.body.session_id` (line 1179). -/
  body_session_id : Option String
  /-- Value of `Date.now()` during the handler. -/
  now : Nat
  /-- Reading and parsing `<id>.json` succeeds (per id). -/
  loadOk : String → Bool
  /-- The launch/newContext/goto/wait steps after a successful load
  succeed (per id). -/
  restoreOk : String → Bool
  /-- Whether `findOtpInputInAllFrames` found an input (line 1397). -/
  otpFieldFound : Bool
  /-- Whether `found.locator.fill(otp)` does not throw (line 1408). -/
  otpFillOk : Bool
  /-- Some submit selector is visible in the found frame or page-wide
  (lines 1420-1443). -/
  submitClickable : Bool
  /-- Whether the network-quiescence wait at line 1464 (which has no
  `catch`) does not time out. -/
  networkIdleOk : Bool
  /-- Whether the unprotected `await browser.close()` of the
  login-incomplete and success paths (lines 1521 and 1542) resolves.
  When it rejects, control jumps to the handler-level `catch` (line
  1553), which responds 500 with the error message and retries the
  close best-effort; the `sessions.delete` and `fs.unlink` of those
  paths never run. -/
  closeOk : Bool
  /-- The message of an error reaching the handler-level `catch`. -/
  caughtMsg : String
  /-- The page state the success battery examines. -/
  battery : Battery

/-- The observable outcome of one `/complete-login` invocation. -/
structure CompleteOutcome where
  resp : Response
  st : St
  /-- Some browser context opened during this attempt is still open
  when the response is sent. -/
  leakedOpen : Bool
  /-- The effective session id as first resolved
  (`session_id || latestSessionId`). -/
  requestedId : Option String
  /-- The effective session id when the handler finished (rebound by
  the adoption scan). -/
  effectiveId : Option String
  /-- Deferred tasks scheduled by the handler. -/
  deferred : List DeferredTask

/-- The tail of `/complete-login` from line 1390 on, once a session
with id `e` is at hand: OTP entry (lines 1395-1462), the uncaught
network-quiescence wait (line 1464), the success battery, and the
terminal paths (lines 1519-1551), whose unprotected
`await browser.close()` can itself reject and divert into the
handler-level `catch` before the session delete and snapshot unlink
run.  `openedThisAttempt` records whether
the browser of the session was launched during this request (restored or
adopted); `scanLeaked` whether the load attempts left extra launched
browsers behind. -/
def finishLogin (env : CompleteEnv) (st : St) (req eff : String)
    (openedThisAttempt : Bool) (scanLeaked : Bool) : CompleteOutcome :=
  if !env.otpFieldFound then
    ⟨⟨500, false, some "OTP field not found", some "otp:input", none, none⟩,
      st, openedThisAttempt || scanLeaked, some req, some eff, []⟩
  else if !env.otpFillOk then
    ⟨⟨500, false, some "OTP entry failed", some "otp:input", none, none⟩,
      st, openedThisAttempt || scanLeaked, some req, some eff, []⟩
  else if !env.submitClickable then
    ⟨⟨500, false, some "Submit button not found", some "otp:submit", none, none⟩,
      st, openedThisAttempt || scanLeaked, some req, some eff, []⟩
  else if !env.networkIdleOk then
    ⟨⟨500, false, some env.caughtMsg, some "OTP", none, none⟩,
      st, scanLeaked, some req, some eff, []⟩
  else if !(loginSuccessCheck env.battery) then
    if env.closeOk then
      ⟨⟨500, false, some "Login incomplete", some "login:success-check",
          none, none⟩,
        ⟨delA st.sessions eff, st.latestSessionId, removeFile st.disk eff⟩,
        scanLeaked, some req, some eff, []⟩
    else
      ⟨⟨500, false, some env.caughtMsg, some "OTP", none, none⟩,
        st, scanLeaked, some req, some eff, []⟩
  else
    if env.closeOk then
      ⟨⟨200, true, none, none, some "Login complete", none⟩,
        ⟨delA st.sessions eff, st.latestSessionId, removeFile st.disk eff⟩,
        scanLeaked, some req, some eff, []⟩
    else
      ⟨⟨500, false, some env.caughtMsg, some "OTP", none, none⟩,
        st, scanLeaked, some req, some eff, []⟩

/-- A load attempt for the snapshot of id `f` launches a browser and
then fails, leaving it open (loop iterations at lines 1216-1244,
1252-1282 and 1335-1373 catch and continue). -/
def loadLeak (env : CompleteEnv) (disk : List String) (f : String) : Bool :=
  disk.contains f && env.loadOk f && !(env.restoreOk f)

/-- The snapshot of the id can be loaded and restored into a fresh browser
context. -/
def adoptable (env : CompleteEnv) (disk : List String) (f : String) : Bool :=
  disk.contains f && env.loadOk f && env.restoreOk f

/-- Launched-and-abandoned browsers accumulated by the directory scan
(lines 1252-1282) before it adopts a file or gives up. -/
def scanLeak (env : CompleteEnv) : List String → Bool
  | [] => false
  | f :: rest =>
    if env.loadOk f && env.restoreOk f then false
    else (env.loadOk f && !(env.restoreOk f)) || scanLeak env rest

/-- A freshly (re)constructed session entry
(`{ browser, context, page, expiry: Date.now() + SESSION_TTL }`). -/
def freshSession (now : Nat) : Session :=
  ⟨now + SESSION_TTL, false, false⟩

/-- Handler `POST /complete-login` (lines 1176-1575). -/
def completeLogin (env : CompleteEnv) (st : St) : CompleteOutcome :=
  match env.otp with
  | none =>
    ⟨⟨400, false, some "Missing otp", some "OTP", none, none⟩,
      st, false, none, none, []⟩
  | some _ =>
    match jsOrStr env.body_session_id st.latestSessionId with
    | none =>
      ⟨⟨400, false, some "No active session. Please start login first.",
          some "OTP", none, none⟩, st, false, none, none, []⟩
    | some e =>
      if e = "" then
        ⟨⟨400, false, some "No active session. Please start login first.",
            some "OTP", none, none⟩, st, false, none, none, []⟩
      else
        match lookupA st.sessions e with
        | none =>
          if adoptable env st.disk e then
            finishLogin env
              ⟨setA st.sessions e (freshSession env.now),
                st.latestSessionId, st.disk⟩
              e e true false
          else
            match st.disk.find? (fun f => env.loadOk f && env.restoreOk f) with
            | some a =>
              finishLogin env
                ⟨setA st.sessions a (freshSession env.now),
                  st.latestSessionId, st.disk⟩
                e a true (loadLeak env st.disk e || scanLeak env st.disk)
            | none =>
              ⟨⟨400, false, some "Session not found", some "OTP", none, none⟩,
                st, loadLeak env st.disk e || scanLeak env st.disk,
                some e, some e, []⟩
        | some s =>
          if s.expiry < env.now then
            ⟨⟨400, false, some "Session expired", some "OTP", none, none⟩,
              ⟨delA st.sessions e, st.latestSessionId, st.disk⟩,
              false, some e, some e, []⟩
          else if s.pageClosed then
            if adoptable env st.disk e then
              finishLogin env
                ⟨setA st.sessions e (freshSession env.now),
                  st.latestSessionId, st.disk⟩
                e e true false
            else
              ⟨⟨400, false,
                  some "Session page closed and cannot be restored",
                  some "OTP", none, none⟩,
                ⟨delA st.sessions e, st.latestSessionId, st.disk⟩,
                loadLeak env st.disk e, some e, some e, []⟩
          else
            finishLogin env st e e false false

theorem mem_keys_setA {α : Type} {l : List (String × α)} {k j : String} {v : α}
    (h : j ∈ (setA l k v).map Prod.fst) : j ∈ l.map Prod.fst ∨ j = k := by
  induction l with
  | nil =>
    simp [setA] at h
    exact Or.inr h
  | cons e rest ih =>
    by_cases he : e.1 = k
    · rw [setA, if_pos he] at h
      rw [List.map_cons] at h
      rcases List.mem_cons.mp h with h1 | h2
      · exact Or.inr h1
      · exact Or.inl (by rw [List.map_cons]; exact List.mem_cons_of_mem _ h2)
    · rw [setA, if_neg he] at h
      rw [List.map_cons] at h
      rcases List.mem_cons.mp h with h1 | h2
      · exact Or.inl (by rw [List.map_cons, h1]; exact List.mem_cons_self _ _)
      · rcases ih h2 with h3 | h4
        · exact Or.inl (by rw [List.map_cons]; exact List.mem_cons_of_mem _ h3)
        · exact Or.inr h4

theorem keysNodup_setA {α : Type} {l : List (String × α)} (k : String) (v : α)
    (h : keysNodup l) : keysNodup (setA l k v) := by
  induction l with
  | nil => simp [setA, keysNodup]
  | cons e rest ih =>
    by_cases he : e.1 = k
    · rw [setA, if_pos he]
      have h1 := keysNodup_head_notin h
      have h2 := keysNodup_tail h
      rw [keysNodup, List.map_cons, List.nodup_cons]
      exact ⟨by rw [← he]; exact h1, h2⟩
    · rw [setA, if_neg he]
      have h1 := keysNodup_head_notin h
      have h2 := keysNodup_tail h
      rw [keysNodup, List.map_cons, List.nodup_cons]
      refine ⟨?_, ih h2⟩
      intro hcontra
      rcases mem_keys_setA hcontra with h3 | h4
      · exact h1 h3
      · exact he h4

theorem finishLogin_deferred (env : CompleteEnv) (st : St) (req eff : String)
    (o l : Bool) : (finishLogin env st req eff o l).deferred = [] := by
  rw [finishLogin]
  by_cases h1 : env.otpFieldFound
  all_goals by_cases h2 : env.otpFillOk
  all_goals by_cases h3 : env.submitClickable
  all_goals by_cases h4 : env.networkIdleOk
  all_goals by_cases h5 : loginSuccessCheck env.battery
  all_goals by_cases h6 : env.closeOk
  all_goals simp [h1, h2, h3, h4, h5, h6]

theorem finishLogin_ok (env : CompleteEnv) (st : St) (req eff : String)
    (o l : Bool) (hnd : keysNodup st.sessions) :
    (finishLogin env st req eff o l).resp.ok = true →
    (finishLogin env st req eff o l).effectiveId = some eff ∧
    lookupA (finishLogin env st req eff o l).st.sessions eff = none ∧
    (finishLogin env st req eff o l).st.disk.contains eff = false ∧
    (finishLogin env st req eff o l).resp.message = some "Login complete" ∧
    (finishLogin env st req eff o l).leakedOpen = l := by
  rw [finishLogin]
  by_cases h1 : env.otpFieldFound
  all_goals by_cases h2 : env.otpFillOk
  all_goals by_cases h3 : env.submitClickable
  all_goals by_cases h4 : env.networkIdleOk
  all_goals by_cases h5 : loginSuccessCheck env.battery
  all_goals by_cases h6 : env.closeOk
  all_goals simp [h1, h2, h3, h4, h5, h6]
  exact ⟨lookupA_delA_self _ _ hnd,
    by simpa using removeFile_contains_self st.disk eff⟩

theorem finishLogin_fail_leak (env : CompleteEnv) (st : St) (req eff : String)
    (o l : Bool) :
    (finishLogin env st req eff o l).resp.ok = false →
    (finishLogin env st req eff o l).leakedOpen = true →
    (finishLogin env st req eff o l).resp.errMsg = some "OTP field not found" ∨
    (finishLogin env st req eff o l).resp.errMsg = some "OTP entry failed" ∨
    (finishLogin env st req eff o l).resp.errMsg =
      some "Submit button not found" ∨
    l = true := by
  rw [finishLogin]
  by_cases h1 : env.otpFieldFound
  all_goals by_cases h2 : env.otpFillOk
  all_goals by_cases h3 : env.submitClickable
  all_goals by_cases h4 : env.networkIdleOk
  all_goals by_cases h5 : loginSuccessCheck env.battery
  all_goals by_cases h6 : env.closeOk
  all_goals simp [h1, h2, h3, h4, h5, h6]
  all_goals intro hl
  all_goals exact Or.inr (Or.inr (Or.inr hl))

theorem scanLeak_exists {env : CompleteEnv} {files : List String}
    (h : scanLeak env files = true) :
    ∃ f ∈ files, (env.loadOk f && !(env.restoreOk f)) = true := by
  induction files with
  | nil => simp [scanLeak] at h
  | cons f rest ih =>
    rw [scanLeak] at h
    by_cases hf : (env.loadOk f && env.restoreOk f) = true
    · rw [if_pos hf] at h
      cases h
    · rw [if_neg hf] at h
      rcases Bool.or_eq_true_iff.mp h with h1 | h2
      · exact ⟨f, List.mem_cons_self f rest, h1⟩
      · obtain ⟨g, hg, hgl⟩ := ih h2
        exact ⟨g, List.mem_cons_of_mem f hg, hgl⟩

/-- The `Missing otp` outcome (lines 1181-1187). -/
def noOtpOutcome (st : St) : CompleteOutcome :=
  ⟨⟨400, false, some "Missing otp", some "OTP", none, none⟩,
    st, false, none, none, []⟩

/-- The `No active session` outcome (lines 1191-1203). -/
def noActiveOutcome (st : St) : CompleteOutcome :=
  ⟨⟨400, false, some "No active session. Please start login first.",
      some "OTP", none, none⟩, st, false, none, none, []⟩

theorem completeLogin_noOtp (env : CompleteEnv) (st : St)
    (h : env.otp = none) : completeLogin env st = noOtpOutcome st := by
  simp only [completeLogin, h, noOtpOutcome]

theorem completeLogin_noActive (env : CompleteEnv) (st : St) (o : String)
    (ho : env.otp = some o)
    (hjs : jsOrStr env.body_session_id st.latestSessionId = none) :
    completeLogin env st = noActiveOutcome st := by
  simp only [completeLogin, ho, hjs, noActiveOutcome]

theorem completeLogin_emptyId (env : CompleteEnv) (st : St) (o : String)
    (ho : env.otp = some o)
    (hjs : jsOrStr env.body_session_id st.latestSessionId = some "") :
    completeLogin env st = noActiveOutcome st := by
  simp only [completeLogin, ho, hjs, noActiveOutcome, if_pos]

theorem completeLogin_adoptId (env : CompleteEnv) (st : St) (o e : String)
    (ho : env.otp = some o)
    (hjs : jsOrStr env.body_session_id st.latestSessionId = some e)
    (he : ¬ e = "") (hlk : lookupA st.sessions e = none)
    (had : adoptable env st.disk e = true) :
    completeLogin env st =
      finishLogin env
        ⟨setA st.sessions e (freshSession env.now), st.latestSessionId,
          st.disk⟩ e e true false := by
  simp only [completeLogin, ho, hjs, if_neg he, hlk, had, if_true]

theorem completeLogin_adoptScan (env : CompleteEnv) (st : St) (o e a : String)
    (ho : env.otp = some o)
    (hjs : jsOrStr env.body_session_id st.latestSessionId = some e)
    (he : ¬ e = "") (hlk : lookupA st.sessions e = none)
    (had : adoptable env st.disk e = false)
    (hfind : st.disk.find? (fun f => env.loadOk f && env.restoreOk f) = some a) :
    completeLogin env st =
      finishLogin env
        ⟨setA st.sessions a (freshSession env.now), st.latestSessionId,
          st.disk⟩ e a true (loadLeak env st.disk e || scanLeak env st.disk) := by
  simp only [completeLogin, ho, hjs, if_neg he, hlk, had, Bool.false_eq_true,
    if_false, hfind]

theorem completeLogin_notFound (env : CompleteEnv) (st : St) (o e : String)
    (ho : env.otp = some o)
    (hjs : jsOrStr env.body_session_id st.latestSessionId = some e)
    (he : ¬ e = "") (hlk : lookupA st.sessions e = none)
    (had : adoptable env st.disk e = false)
    (hfind : st.disk.find? (fun f => env.loadOk f && env.restoreOk f) = none) :
    completeLogin env st =
      ⟨⟨400, false, some "Session not found", some "OTP", none, none⟩,
        st, loadLeak env st.disk e || scanLeak env st.disk,
        some e, some e, []⟩ := by
  simp only [completeLogin, ho, hjs, if_neg he, hlk, had, Bool.false_eq_true,
    if_false, hfind]

theorem completeLogin_expired (env : CompleteEnv) (st : St) (o e : String)
    (s : Session) (ho : env.otp = some o)
    (hjs : jsOrStr env.body_session_id st.latestSessionId = some e)
    (he : ¬ e = "") (hlk : lookupA st.sessions e = some s)
    (hexp : s.expiry < env.now) :
    completeLogin env st =
      ⟨⟨400, false, some "Session expired", some "OTP", none, none⟩,
        ⟨delA st.sessions e, st.latestSessionId, st.disk⟩,
        false, some e, some e, []⟩ := by
  simp only [completeLogin, ho, hjs, if_neg he, hlk, if_pos hexp]

theorem completeLogin_restore (env : CompleteEnv) (st : St) (o e : String)
    (s : Session) (ho : env.otp = some o)
    (hjs : jsOrStr env.body_session_id st.latestSessionId = some e)
    (he : ¬ e = "") (hlk : lookupA st.sessions e = some s)
    (hexp : ¬ s.expiry < env.now) (hpc : s.pageClosed = true)
    (had : adoptable env st.disk e = true) :
    completeLogin env st =
      finishLogin env
        ⟨setA st.sessions e (freshSession env.now), st.latestSessionId,
          st.disk⟩ e e true false := by
  simp only [completeLogin, ho, hjs, if_neg he, hlk, if_neg hexp, hpc,
    if_true, had]

theorem completeLogin_cannotRestore (env : CompleteEnv) (st : St) (o e : String)
    (s : Session) (ho : env.otp = some o)
    (hjs : jsOrStr env.body_session_id st.latestSessionId = some e)
    (he : ¬ e = "") (hlk : lookupA st.sessions e = some s)
    (hexp : ¬ s.expiry < env.now) (hpc : s.pageClosed = true)
    (had : adoptable env st.disk e = false) :
    completeLogin env st =
      ⟨⟨400, false, some "Session page closed and cannot be restored",
          some "OTP", none, none⟩,
        ⟨delA st.sessions e, st.latestSessionId, st.disk⟩,
        loadLeak env st.disk e, some e, some e, []⟩ := by
  simp only [completeLogin, ho, hjs, if_neg he, hlk, if_neg hexp, hpc,
    if_true, had, Bool.false_eq_true, if_false]

theorem completeLogin_direct (env : CompleteEnv) (st : St) (o e : String)
    (s : Session) (ho : env.otp = some o)
    (hjs : jsOrStr env.body_session_id st.latestSessionId = some e)
    (he : ¬ e = "") (hlk : lookupA st.sessions e = some s)
    (hexp : ¬ s.expiry < env.now) (hpc : s.pageClosed = false) :
    completeLogin env st = finishLogin env st e e false false := by
  simp only [completeLogin, ho, hjs, if_neg he, hlk, if_neg hexp, hpc,
    Bool.false_eq_true, if_false]

theorem completeLogin_deferred_aux (env : CompleteEnv) (st : St) :
    (completeLogin env st).deferred = [] := by
  cases ho : env.otp with
  | none => rw [completeLogin_noOtp env st ho]; rfl
  | some o =>
    cases hjs : jsOrStr env.body_session_id st.latestSessionId with
    | none => rw [completeLogin_noActive env st o ho hjs]; rfl
    | some e =>
      by_cases he : e = ""
      · rw [he] at hjs
        rw [completeLogin_emptyId env st o ho hjs]; rfl
      · cases hlk : lookupA st.sessions e with
        | none =>
          cases had : adoptable env st.disk e with
          | true =>
            rw [completeLogin_adoptId env st o e ho hjs he hlk had]
            exact finishLogin_deferred env _ e e true false
          | false =>
            cases hfind : st.disk.find? (fun f => env.loadOk f && env.restoreOk f) with
            | some a =>
              rw [completeLogin_adoptScan env st o e a ho hjs he hlk had hfind]
              exact finishLogin_deferred env _ e a true _
            | none =>
              rw [completeLogin_notFound env st o e ho hjs he hlk had hfind]
        | some s =>
          by_cases hexp : s.expiry < env.now
          · rw [completeLogin_expired env st o e s ho hjs he hlk hexp]
          · cases hpc : s.pageClosed with
            | true =>
              cases had : adoptable env st.disk e with
              | true =>
                rw [completeLogin_restore env st o e s ho hjs he hlk hexp hpc had]
                exact finishLogin_deferred env _ e e true false
              | false =>
                rw [completeLogin_cannotRestore env st o e s ho hjs he hlk hexp hpc had]
            | false =>
              rw [completeLogin_direct env st o e s ho hjs he hlk hexp hpc]
              exact finishLogin_deferred env st e e false false

theorem completeLogin_ok_aux (env : CompleteEnv) (st : St)
    (hnd : keysNodup st.sessions) :
    (completeLogin env st).resp.ok = true →
    ∃ a, (completeLogin env st).effectiveId = some a ∧
      lookupA (completeLogin env st).st.sessions a = none ∧
      (completeLogin env st).st.disk.contains a = false ∧
      (completeLogin env st).resp.message = some "Login complete" := by
  cases ho : env.otp with
  | none => rw [completeLogin_noOtp env st ho]; intro h; cases h
  | some o =>
    cases hjs : jsOrStr env.body_session_id st.latestSessionId with
    | none => rw [completeLogin_noActive env st o ho hjs]; intro h; cases h
    | some e =>
      by_cases he : e = ""
      · rw [he] at hjs
        rw [completeLogin_emptyId env st o ho hjs]; intro h; cases h
      · cases hlk : lookupA st.sessions e with
        | none =>
          cases had : adoptable env st.disk e with
          | true =>
            rw [completeLogin_adoptId env st o e ho hjs he hlk had]
            intro h
            obtain ⟨h1, h2, h3, h4, _⟩ :=
              finishLogin_ok env _ e e true false (keysNodup_setA _ _ hnd) h
            exact ⟨e, h1, h2, h3, h4⟩
          | false =>
            cases hfind : st.disk.find? (fun f => env.loadOk f && env.restoreOk f) with
            | some a =>
              rw [completeLogin_adoptScan env st o e a ho hjs he hlk had hfind]
              intro h
              obtain ⟨h1, h2, h3, h4, _⟩ :=
                finishLogin_ok env _ e a true _ (keysNodup_setA _ _ hnd) h
              exact ⟨a, h1, h2, h3, h4⟩
            | none =>
              rw [completeLogin_notFound env st o e ho hjs he hlk had hfind]
              intro h; cases h
        | some s =>
          by_cases hexp : s.expiry < env.now
          · rw [completeLogin_expired env st o e s ho hjs he hlk hexp]
            intro h; cases h
          · cases hpc : s.pageClosed with
            | true =>
              cases had : adoptable env st.disk e with
              | true =>
                rw [completeLogin_restore env st o e s ho hjs he hlk hexp hpc had]
                intro h
                obtain ⟨h1, h2, h3, h4, _⟩ :=
                  finishLogin_ok env _ e e true false (keysNodup_setA _ _ hnd) h
                exact ⟨e, h1, h2, h3, h4⟩
              | false =>
                rw [completeLogin_cannotRestore env st o e s ho hjs he hlk hexp hpc had]
                intro h; cases h
            | false =>
              rw [completeLogin_direct env st o e s ho hjs he hlk hexp hpc]
              intro h
              obtain ⟨h1, h2, h3, h4, _⟩ := finishLogin_ok env st e e false false hnd h
              exact ⟨e, h1, h2, h3, h4⟩

theorem loadLeak_of_scanLeak {env : CompleteEnv} {disk : List String}
    (h : scanLeak env disk = true) : ∃ f, loadLeak env disk f = true := by
  obtain ⟨g, hg, hgl⟩ := scanLeak_exists h
  refine ⟨g, ?_⟩
  rw [loadLeak]
  have hgc : disk.contains g = true := by
    rw [List.contains_iff_exists_mem_beq]
    exact ⟨g, hg, by simp⟩
  rw [hgc]
  simpa using hgl

theorem completeLogin_fail_leak_aux (env : CompleteEnv) (st : St) :
    (completeLogin env st).resp.ok = false →
    (completeLogin env st).leakedOpen = true →
    (completeLogin env st).resp.errMsg ∈
      [some "Session not found",
        some "Session page closed and cannot be restored",
        some "OTP field not found", some "OTP entry failed",
        some "Submit button not found"] ∨
      ∃ f, loadLeak env st.disk f = true := by
  cases ho : env.otp with
  | none => rw [completeLogin_noOtp env st ho]; intro _ h; cases h
  | some o =>
    cases hjs : jsOrStr env.body_session_id st.latestSessionId with
    | none => rw [completeLogin_noActive env st o ho hjs]; intro _ h; cases h
    | some e =>
      by_cases he : e = ""
      · rw [he] at hjs
        rw [completeLogin_emptyId env st o ho hjs]; intro _ h; cases h
      · cases hlk : lookupA st.sessions e with
        | none =>
          cases had : adoptable env st.disk e with
          | true =>
            rw [completeLogin_adoptId env st o e ho hjs he hlk had]
            intro h1 h2
            rcases finishLogin_fail_leak env _ e e true false h1 h2
              with h3 | h3 | h3 | h3
            · exact Or.inl (by simp [h3])
            · exact Or.inl (by simp [h3])
            · exact Or.inl (by simp [h3])
            · cases h3
          | false =>
            cases hfind : st.disk.find? (fun f => env.loadOk f && env.restoreOk f) with
            | some a =>
              rw [completeLogin_adoptScan env st o e a ho hjs he hlk had hfind]
              intro h1 h2
              rcases finishLogin_fail_leak env _ e a true _ h1 h2
                with h3 | h3 | h3 | h3
              · exact Or.inl (by simp [h3])
              · exact Or.inl (by simp [h3])
              · exact Or.inl (by simp [h3])
              · right
                rcases Bool.or_eq_true_iff.mp h3 with h4 | h4
                · exact ⟨e, h4⟩
                · exact loadLeak_of_scanLeak h4
            | none =>
              rw [completeLogin_notFound env st o e ho hjs he hlk had hfind]
              intro _ h2
              right
              rcases Bool.or_eq_true_iff.mp h2 with h3 | h3
              · exact ⟨e, h3⟩
              · exact loadLeak_of_scanLeak h3
        | some s =>
          by_cases hexp : s.expiry < env.now
          · rw [completeLogin_expired env st o e s ho hjs he hlk hexp]
            intro _ h; cases h
          · cases hpc : s.pageClosed with
            | true =>
              cases had : adoptable env st.disk e with
              | true =>
                rw [completeLogin_restore env st o e s ho hjs he hlk hexp hpc had]
                intro h1 h2
                rcases finishLogin_fail_leak env _ e e true false h1 h2
                  with h3 | h3 | h3 | h3
                · exact Or.inl (by simp [h3])
                · exact Or.inl (by simp [h3])
                · exact Or.inl (by simp [h3])
                · cases h3
              | false =>
                rw [completeLogin_cannotRestore env st o e s ho hjs he hlk hexp hpc had]
                intro _ h2
                exact Or.inr ⟨e, h2⟩
            | false =>
              rw [completeLogin_direct env st o e s ho hjs he hlk hexp hpc]
              intro h1 h2
              rcases finishLogin_fail_leak env st e e false false h1 h2
                with h3 | h3 | h3 | h3
              · exact Or.inl (by simp [h3])
              · exact Or.inl (by simp [h3])
              · exact Or.inl (by simp [h3])
              · cases h3

theorem finishLogin_ids (env : CompleteEnv) (st : St) (req eff : String)
    (o l : Bool) :
    (finishLogin env st req eff o l).requestedId = some req ∧
    (finishLogin env st req eff o l).effectiveId = some eff := by
  rw [finishLogin]
  by_cases h1 : env.otpFieldFound
  all_goals by_cases h2 : env.otpFillOk
  all_goals by_cases h3 : env.submitClickable
  all_goals by_cases h4 : env.networkIdleOk
  all_goals by_cases h5 : loginSuccessCheck env.battery
  all_goals by_cases h6 : env.closeOk
  all_goals simp [h1, h2, h3, h4, h5, h6]

theorem finishLogin_status_ne_400 (env : CompleteEnv) (st : St)
    (req eff : String) (o l : Bool) :
    (finishLogin env st req eff o l).resp.status ≠ 400 := by
  rw [finishLogin]
  by_cases h1 : env.otpFieldFound
  all_goals by_cases h2 : env.otpFillOk
  all_goals by_cases h3 : env.submitClickable
  all_goals by_cases h4 : env.networkIdleOk
  all_goals by_cases h5 : loginSuccessCheck env.battery
  all_goals by_cases h6 : env.closeOk
  all_goals simp [h1, h2, h3, h4, h5, h6]

/-!
## C2: export hand-off

The success path of `/complete-login` (lines 1538-1551) reads the
cookies, takes a screenshot, closes the browser, deletes the session
and its snapshot and responds; it schedules nothing - no deferred
export push, no cooldown timer, no retries exist anywhere in the
reference variant.
-/

/-- A battery state that passes the success check via the content
signal. -/
def ce2Battery : Battery :=
  ⟨"https://compliancenominationportal.in.pwc.com/home", true, false,
    false, [], "Background Verification dashboard"⟩

/-- A fully successful completion environment. -/
def ce2Env : CompleteEnv :=
  ⟨some "123456", some "s1", 0, fun _ => false, fun _ => false,
    true, true, true, true, true, "", ce2Battery⟩

/-- A state with one live session `s1` and its snapshot. -/
def ce2St : St := ⟨[("s1", ⟨100, false, false⟩)], some "s1", ["s1"]⟩

/-- Claim C2 as stated is false: a completion that returns `ok:true`
schedules no export hand-off (no deferred task at all), so no delayed
push with retries ever happens. -/
theorem C2_counterexample :
    (completeLogin ce2Env ce2St).resp.ok = true ∧
    (completeLogin ce2Env ce2St).deferred = [] := by
  decide

/-- Claim C2 (amended): `/complete-login` never schedules any deferred
work - in particular no export hand-off, so no retry policy applies -
and a completion that returns `ok:true` simply responds
`Login complete` after deleting the effective session and its snapshot
file. -/
theorem C2_no_export_handoff (env : CompleteEnv) (st : St)
    (hnd : keysNodup st.sessions) :
    (completeLogin env st).deferred = [] ∧
    ((completeLogin env st).resp.ok = true →
      ∃ a, (completeLogin env st).effectiveId = some a ∧
        lookupA (completeLogin env st).st.sessions a = none ∧
        (completeLogin env st).st.disk.contains a = false ∧
        (completeLogin env st).resp.message = some "Login complete") :=
  ⟨completeLogin_deferred_aux env st, completeLogin_ok_aux env st hnd⟩

/-- Witness for `C2_no_export_handoff` at the concrete successful
completion of the counterexample. -/
theorem C2_no_export_handoff_witness :
    (completeLogin ce2Env ce2St).deferred = [] ∧
    ((completeLogin ce2Env ce2St).resp.ok = true →
      ∃ a, (completeLogin ce2Env ce2St).effectiveId = some a ∧
        lookupA (completeLogin ce2Env ce2St).st.sessions a = none ∧
        (completeLogin ce2Env ce2St).st.disk.contains a = false ∧
        (completeLogin ce2Env ce2St).resp.message = some "Login complete") :=
  C2_no_export_handoff ce2Env ce2St (by simp [ce2St, keysNodup])

/-!
## C3: no failure response leaves an open browser context

False: the snapshot-save failure of `/start-login` (lines 1127-1135)
responds without closing the browser launched at line 970, and several
failing paths of `/complete-login` (the post-restore
`Session not found`, `Session page closed and cannot be restored`,
`OTP field not found`, `OTP entry failed` and `Submit button not
found` responses) also return without closing contexts opened during
the attempt.
-/

/-- A `/start-login` environment that reaches the snapshot write and
fails there. -/
def ce3Env : StartEnv :=
  ⟨true, "s1", 0, false, "", true, true, true, true, true, false, false⟩

/-- Claim C3 as stated is false: the snapshot-save failure path of
`/start-login` sends its `ok:false` response while the browser opened
during the attempt is still open. -/
theorem C3_counterexample :
    (startLogin ce3Env ⟨[], none, []⟩).resp.ok = false ∧
    (startLogin ce3Env ⟨[], none, []⟩).resp.errMsg =
      some "Failed to save session" ∧
    (startLogin ce3Env ⟨[], none, []⟩).browserOpenAfter = true := by
  decide

/-- Claim C3 (amended): every failing path of `/start-login` closes the
browser opened during the attempt before responding, except the
snapshot-save failure (the leak happens exactly on that path); in
`/complete-login`, a failing response can leave a context opened during
the attempt open only on the `Session not found`,
`Session page closed and cannot be restored`, `OTP field not found`,
`OTP entry failed` and `Submit button not found` paths, or when a
snapshot-load attempt launched a browser and then failed (the loop
catches and continues, abandoning it). -/
theorem C3_failure_closes_context :
    (∀ (env : StartEnv) (st : St),
      (startLogin env st).resp.ok = false →
      ((startLogin env st).browserOpenAfter = true ↔
        (env.credsPresent = true ∧ env.gotoThrows = false ∧
          env.emailFilled = true ∧ env.passFilled = true ∧
          env.submitted = true ∧ env.mfaOk = true ∧
          env.otpFound = true ∧ env.saveOk = false))) ∧
    (∀ (env : CompleteEnv) (st : St),
      (completeLogin env st).resp.ok = false →
      (completeLogin env st).leakedOpen = true →
      (completeLogin env st).resp.errMsg ∈
        [some "Session not found",
          some "Session page closed and cannot be restored",
          some "OTP field not found", some "OTP entry failed",
          some "Submit button not found"] ∨
        ∃ f, loadLeak env st.disk f = true) := by
  constructor
  · intro env st
    rw [startLogin]
    by_cases h1 : env.credsPresent
    all_goals by_cases h2 : env.gotoThrows
    all_goals by_cases h3 : env.emailFilled
    all_goals by_cases h4 : env.passFilled
    all_goals by_cases h5 : env.submitted
    all_goals by_cases h6 : env.mfaOk
    all_goals by_cases h7 : env.otpFound
    all_goals by_cases h8 : env.stillOnMfa
    all_goals by_cases h9 : env.saveOk
    all_goals simp [h1, h2, h3, h4, h5, h6, h7, h8, h9]
  · exact completeLogin_fail_leak_aux

/-- Witness for `C3_failure_closes_context` at the snapshot-save
failure of the counterexample. -/
theorem C3_failure_closes_context_witness :
    (startLogin ce3Env ⟨[], none, []⟩).browserOpenAfter = true ↔
      (ce3Env.credsPresent = true ∧ ce3Env.gotoThrows = false ∧
        ce3Env.emailFilled = true ∧ ce3Env.passFilled = true ∧
        ce3Env.submitted = true ∧ ce3Env.mfaOk = true ∧
        ce3Env.otpFound = true ∧ ce3Env.saveOk = false) :=
  C3_failure_closes_context.1 ce3Env ⟨[], none, []⟩ (by decide)

/-!
## C7: login-incomplete cleanup

When none of the success signals matches, `/complete-login` builds the
`Login incomplete` path of lines 1519-1536: screenshot, then an
unprotected `await browser.close()`, then `sessions.delete` and
`fs.unlink`, then the 500 response.  Because the close sits first and
has no `catch`, a rejecting close diverts into the handler-level
`catch` (line 1553), which responds 500 with the close error message
while the session entry and the snapshot file both survive - the same
unprotected-close divergence as in `cleanupExpiredSessions`.
-/

/-- A battery state where no signal matches: a non-PwC URL, no content
markers, no cookies, and login vocabulary in the body. -/
def ce7Battery : Battery :=
  ⟨"https://login.example.org/", false, false, false, [],
    "Please sign in to continue"⟩

/-- Environment for the C7 counterexample: every browser step up to the
battery succeeds and no signal matches, but the unprotected
`browser.close()` of line 1521 rejects. -/
def ce7FailEnv : CompleteEnv :=
  ⟨some "000000", some "s1", 0, fun _ => false, fun _ => false,
    true, true, true, true, false, "Browser has been closed", ce7Battery⟩

/-- Claim C7 as stated is false: on a completion where no success
signal matches but the `await browser.close()` at line 1521 rejects,
the handler responds with the close error message instead of
`Login incomplete`, the session is still in the table, and its
snapshot file is still on disk. -/
theorem C7_counterexample :
    (completeLogin ce7FailEnv ce2St).resp.ok = false ∧
    (completeLogin ce7FailEnv ce2St).resp.errMsg =
      some "Browser has been closed" ∧
    ¬ (completeLogin ce7FailEnv ce2St).resp.errMsg =
      some "Login incomplete" ∧
    lookupA (completeLogin ce7FailEnv ce2St).st.sessions "s1" =
      some ⟨100, false, false⟩ ∧
    (completeLogin ce7FailEnv ce2St).st.disk.contains "s1" = true := by
  decide

/-- Claim C7 (amended): for a completion whose success battery finds no
signal (URL, content marker, auth cookie, substantial non-login body
text all fail), provided the unprotected `await browser.close()` of
line 1521 resolves, the response is `ok:false` with error
`Login incomplete`, the session is removed from the table, and its
snapshot file is deleted; when that close rejects, the handler-level
`catch` responds 500 with the close error message instead, and the
session entry and the snapshot file both survive. -/
theorem C7_login_incomplete (env : CompleteEnv) (st : St) (o e : String)
    (s : Session) (hnd : keysNodup st.sessions)
    (ho : env.otp = some o)
    (hjs : jsOrStr env.body_session_id st.latestSessionId = some e)
    (he : ¬ e = "") (hlk : lookupA st.sessions e = some s)
    (hexp : ¬ s.expiry < env.now) (hpc : s.pageClosed = false)
    (hf : env.otpFieldFound = true) (hfill : env.otpFillOk = true)
    (hsub : env.submitClickable = true) (hnet : env.networkIdleOk = true)
    (h1 : urlSignal env.battery = false)
    (h2 : contentSignal env.battery = false)
    (h3 : cookieSignal env.battery = false)
    (h4 : bodySignal env.battery = false) :
    (env.closeOk = true →
      completeLogin env st =
        ⟨⟨500, false, some "Login incomplete", some "login:success-check",
            none, none⟩,
          ⟨delA st.sessions e, st.latestSessionId, removeFile st.disk e⟩,
          false, some e, some e, []⟩ ∧
      lookupA (completeLogin env st).st.sessions e = none ∧
      (completeLogin env st).st.disk.contains e = false) ∧
    (env.closeOk = false →
      completeLogin env st =
        ⟨⟨500, false, some env.caughtMsg, some "OTP", none, none⟩,
          st, false, some e, some e, []⟩ ∧
      lookupA (completeLogin env st).st.sessions e = some s ∧
      (completeLogin env st).st.disk.contains e = st.disk.contains e) := by
  constructor
  · intro hclose
    have heq : completeLogin env st =
        ⟨⟨500, false, some "Login incomplete", some "login:success-check",
            none, none⟩,
          ⟨delA st.sessions e, st.latestSessionId, removeFile st.disk e⟩,
          false, some e, some e, []⟩ := by
      rw [completeLogin_direct env st o e s ho hjs he hlk hexp hpc,
        finishLogin]
      simp [hf, hfill, hsub, hnet, loginSuccessCheck, h2, h3, h4, hclose]
    refine ⟨heq, ?_, ?_⟩
    · rw [heq]
      exact lookupA_delA_self _ _ hnd
    · rw [heq]
      exact removeFile_contains_self st.disk e
  · intro hclose
    have heq : completeLogin env st =
        ⟨⟨500, false, some env.caughtMsg, some "OTP", none, none⟩,
          st, false, some e, some e, []⟩ := by
      rw [completeLogin_direct env st o e s ho hjs he hlk hexp hpc,
        finishLogin]
      simp [hf, hfill, hsub, hnet, loginSuccessCheck, h2, h3, h4, hclose]
    refine ⟨heq, ?_, ?_⟩
    · rw [heq]
      exact hlk
    · rw [heq]

/-- Environment for the C7 witness: session present and current, every
browser step (the close included) succeeds, but the battery finds
nothing. -/
def ce7Env : CompleteEnv :=
  ⟨some "000000", some "s1", 0, fun _ => false, fun _ => false,
    true, true, true, true, true, "", ce7Battery⟩

/-- Witness for `C7_login_incomplete` on a concrete wrong-code
completion. -/
theorem C7_login_incomplete_witness :
    (ce7Env.closeOk = true →
      completeLogin ce7Env ce2St =
        ⟨⟨500, false, some "Login incomplete", some "login:success-check",
            none, none⟩,
          ⟨delA ce2St.sessions "s1", ce2St.latestSessionId,
            removeFile ce2St.disk "s1"⟩,
          false, some "s1", some "s1", []⟩ ∧
      lookupA (completeLogin ce7Env ce2St).st.sessions "s1" = none ∧
      (completeLogin ce7Env ce2St).st.disk.contains "s1" = false) ∧
    (ce7Env.closeOk = false →
      completeLogin ce7Env ce2St =
        ⟨⟨500, false, some ce7Env.caughtMsg, some "OTP", none, none⟩,
          ce2St, false, some "s1", some "s1", []⟩ ∧
      lookupA (completeLogin ce7Env ce2St).st.sessions "s1" =
        some ⟨100, false, false⟩ ∧
      (completeLogin ce7Env ce2St).st.disk.contains "s1" =
        ce2St.disk.contains "s1") :=
  C7_login_incomplete ce7Env ce2St "000000" "s1" ⟨100, false, false⟩
    (by simp [ce2St, keysNodup]) rfl (by decide) (by decide) (by decide)
    (by decide) rfl rfl rfl rfl rfl (by decide) (by decide) (by decide)
    (by decide)

/-!
## C8: `session_id` defaults to the latest-session pointer
-/

/-- Claim C8: when the body of a `/complete-login` request carries an
`otp` but omits `session_id`, the handler uses the latest-session
pointer as the effective session id (for a set pointer the request
proceeds under that id and is not the `No active session` rejection);
the request is rejected for lack of a session exactly when the pointer
is unset (absent or empty, which JavaScript treats as falsy). -/
theorem C8_session_id_defaults_to_latest (env : CompleteEnv) (st : St)
    (o : String) (ho : env.otp = some o) (hb : env.body_session_id = none) :
    (∀ l, st.latestSessionId = some l → ¬ l = "" →
      (completeLogin env st).requestedId = some l ∧
      (completeLogin env st).resp ≠ (noActiveOutcome st).resp) ∧
    ((st.latestSessionId = none ∨ st.latestSessionId = some "") →
      completeLogin env st = noActiveOutcome st) := by
  constructor
  · intro l hl he
    have hjs : jsOrStr env.body_session_id st.latestSessionId = some l := by
      rw [hb, hl]; rfl
    cases hlk : lookupA st.sessions l with
    | none =>
      cases had : adoptable env st.disk l with
      | true =>
        rw [completeLogin_adoptId env st o l ho hjs he hlk had]
        refine ⟨(finishLogin_ids env _ l l true false).1, ?_⟩
        intro hcontra
        exact finishLogin_status_ne_400 env _ l l true false
          (by rw [hcontra]; rfl)
      | false =>
        cases hfind : st.disk.find? (fun f => env.loadOk f && env.restoreOk f) with
        | some a =>
          rw [completeLogin_adoptScan env st o l a ho hjs he hlk had hfind]
          refine ⟨(finishLogin_ids env _ l a true _).1, ?_⟩
          intro hcontra
          exact finishLogin_status_ne_400 env _ l a true _
            (by rw [hcontra]; rfl)
        | none =>
          rw [completeLogin_notFound env st o l ho hjs he hlk had hfind]
          exact ⟨rfl, by simp only [noActiveOutcome]; decide⟩
    | some s =>
      by_cases hexp : s.expiry < env.now
      · rw [completeLogin_expired env st o l s ho hjs he hlk hexp]
        exact ⟨rfl, by simp only [noActiveOutcome]; decide⟩
      · cases hpc : s.pageClosed with
        | true =>
          cases had : adoptable env st.disk l with
          | true =>
            rw [completeLogin_restore env st o l s ho hjs he hlk hexp hpc had]
            refine ⟨(finishLogin_ids env _ l l true false).1, ?_⟩
            intro hcontra
            exact finishLogin_status_ne_400 env _ l l true false
              (by rw [hcontra]; rfl)
          | false =>
            rw [completeLogin_cannotRestore env st o l s ho hjs he hlk hexp
              hpc had]
            exact ⟨rfl, by simp only [noActiveOutcome]; decide⟩
        | false =>
          rw [completeLogin_direct env st o l s ho hjs he hlk hexp hpc]
          refine ⟨(finishLogin_ids env st l l false false).1, ?_⟩
          intro hcontra
          exact finishLogin_status_ne_400 env st l l false false
            (by rw [hcontra]; rfl)
  · intro hl
    rcases hl with hl | hl
    · have hjs : jsOrStr env.body_session_id st.latestSessionId = none := by
        rw [hb, hl]; rfl
      exact completeLogin_noActive env st o ho hjs
    · have hjs : jsOrStr env.body_session_id st.latestSessionId = some "" := by
        rw [hb, hl]; rfl
      exact completeLogin_emptyId env st o ho hjs

/-- Environment for the C8 witness: an `otp` but no `session_id` in
the body. -/
def ce8Env : CompleteEnv :=
  ⟨some "111111", none, 0, fun _ => false, fun _ => false,
    true, true, true, true, true, "", ce7Battery⟩

/-- Witness for `C8_session_id_defaults_to_latest`: with the latest
pointer at `s1`, the omitted body id resolves to `s1` and the request
is not the `No active session` rejection. -/
theorem C8_session_id_defaults_to_latest_witness :
    (completeLogin ce8Env ce2St).requestedId = some "s1" ∧
    (completeLogin ce8Env ce2St).resp ≠ (noActiveOutcome ce2St).resp :=
  (C8_session_id_defaults_to_latest ce8Env ce2St "111111" rfl rfl).1
    "s1" rfl (by decide)

/-!
## C9: adoption of a foreign snapshot

When the effective id is neither in the table nor loadable from its own
snapshot, the handler scans the snapshot directory and adopts the first
loadable file, rebinding the effective session id to the id of that file (lines
1246-1283); the success path then deletes that adopted session.
-/

/-- Claim C9: if the effective session id is neither present in the
table nor loadable from a snapshot under that id, the handler adopts
the first loadable snapshot file in the directory and rebinds the
request to its id, which differs from the id the caller named; a
subsequent successful completion deletes that adopted session and its
snapshot. -/
theorem C9_snapshot_adoption (env : CompleteEnv) (st : St) (o e a : String)
    (hnd : keysNodup st.sessions)
    (ho : env.otp = some o)
    (hjs : jsOrStr env.body_session_id st.latestSessionId = some e)
    (he : ¬ e = "") (hlk : lookupA st.sessions e = none)
    (had : adoptable env st.disk e = false)
    (hfind : st.disk.find? (fun f => env.loadOk f && env.restoreOk f) = some a) :
    (completeLogin env st).requestedId = some e ∧
    (completeLogin env st).effectiveId = some a ∧
    ¬ a = e ∧
    ((completeLogin env st).resp.ok = true →
      lookupA (completeLogin env st).st.sessions a = none ∧
      (completeLogin env st).st.disk.contains a = false) := by
  have hane : ¬ a = e := by
    intro hae
    have hmem : a ∈ st.disk := List.mem_of_find?_eq_some hfind
    have hprop : (env.loadOk a && env.restoreOk a) = true :=
      (find?_first_split hfind).1
    have hcont : st.disk.contains a = true := by
      rw [List.contains_iff_exists_mem_beq]
      exact ⟨a, hmem, by simp⟩
    have hada : adoptable env st.disk a = true := by
      rw [adoptable, hcont]
      simpa using hprop
    rw [hae] at hada
    rw [hada] at had
    cases had
  rw [completeLogin_adoptScan env st o e a ho hjs he hlk had hfind]
  refine ⟨(finishLogin_ids env _ e a true _).1,
    (finishLogin_ids env _ e a true _).2, hane, ?_⟩
  intro hok
  obtain ⟨_, h2, h3, _, _⟩ :=
    finishLogin_ok env _ e a true _ (keysNodup_setA _ _ hnd) hok
  exact ⟨h2, h3⟩

/-- State for the C9 witness: no in-memory sessions, two snapshot
files. -/
def ce9St : St := ⟨[], some "sX", ["bad", "good"]⟩

/-- Environment for the C9 witness: the effective id `sX` of the caller has
no snapshot; `bad.json` does not parse; `good.json` loads and
restores. -/
def ce9Env : CompleteEnv :=
  ⟨some "222222", none, 0, fun f => f == "good", fun _ => true,
    true, true, true, true, true, "", ce2Battery⟩

/-- Witness for `C9_snapshot_adoption`: the request named (via the
latest pointer) `sX` but is rebound to `good`, the first loadable
snapshot. -/
theorem C9_snapshot_adoption_witness :
    (completeLogin ce9Env ce9St).requestedId = some "sX" ∧
    (completeLogin ce9Env ce9St).effectiveId = some "good" ∧
    ¬ "good" = "sX" ∧
    ((completeLogin ce9Env ce9St).resp.ok = true →
      lookupA (completeLogin ce9Env ce9St).st.sessions "good" = none ∧
      (completeLogin ce9Env ce9St).st.disk.contains "good" = false) :=
  C9_snapshot_adoption ce9Env ce9St "222222" "sX" "good"
    (by simp [ce9St, keysNodup]) rfl (by decide) (by decide) rfl
    (by decide) (by decide)

end PwC
